import Mathlib

/-!
# eduvpn-common: server registry and session policy

A shallow embedding of `internal/server/common.go`,
`internal/server/instituteaccess.go` and `verify.go`, with theorems about the
session renewal policy, the server registry, profile validation, configuration
retrieval, signature verification and the validation of the OAuth callback.

Conventions of the embedding.

* A Go pointer into the registry is represented by the value stored at its
  place (collection and URL); a write through the pointer is an explicit
  update of that place. Every `*InstituteAccessServer` of the program is
  created by `addInstituteAndCustom` or by deserialisation, so no two places
  share a pointer.
* A Go map is a function from keys to optional values, wrapped in `Option`
  to tell the nil map from the empty one. A map of pointers has values of type
  `Option _`, `none` being the nil pointer.
* A Go result pair `(value, error)` is a pair whose second component is an
  `Option Error`; where the value is a pointer that the caller dereferences
  after the error check, the pair is an `Except`.
* A run-time panic (nil dereference, index out of range) is the outer `none`
  of a function returning `Option`.
* Calls that leave the program (network, clock, key generation) are fields of
  `Env`.
-/

namespace EduVPN

/-! ## Time (Go package `time`) -/

/-- A `time.Duration`: a signed 64-bit count of nanoseconds (the constants
below are of this type). -/
abbrev Duration := Int

/-- The smallest `time.Duration`. -/
def minDuration : Int := -(2 ^ 63)

/-- The largest `time.Duration`. -/
def maxDuration : Int := 2 ^ 63 - 1

/-- The constant `time.Second`. -/
def Second : Int := 1000000000

/-- The constant `time.Minute`. -/
def Minute : Int := 60 * Second

/-- The constant `time.Hour`. -/
def Hour : Int := 60 * Minute

/-- Two-complement wrap-around of a 64-bit signed integer operation. -/
def wrapInt64 (x : Int) : Int := (x + 2 ^ 63) % 2 ^ 64 - 2 ^ 63

/-- A `time.Time`, as the instant it denotes: nanoseconds on one time line,
counted from the zero value of `time.Time`. The wall/monotonic split of the Go representation and the two ends of its
range (hundreds of billions of years from now) are not represented. -/
structure Time where
  nsec : Int
deriving DecidableEq

/-- The method `Time.Before`. -/
def Time.Before (t u : Time) : Bool := decide (t.nsec < u.nsec)

/-- The method `Time.After`. -/
def Time.After (t u : Time) : Bool := decide (t.nsec > u.nsec)

/-- The method `Time.Add`. -/
def Time.Add (t : Time) (d : Duration) : Time := ⟨t.nsec + d⟩

/-- The method `Time.Sub`: the difference, saturated to the range of
`time.Duration`. -/
def Time.Sub (t u : Time) : Duration :=
  let d := t.nsec - u.nsec
  if d < minDuration then minDuration
  else if d > maxDuration then maxDuration
  else d

/-! ## Errors -/

/-- The error values of package `server`, with `types.WrappedErrorMessage`.
`foreign` stands for an error value made outside the embedded sources. -/
inductive Error where
  | ServerGetCurrentProfileNotFoundError (ProfileID : String)
  | ServerGetConfigForceTCPError
  | ServerEnsureServerEmptyURLError
  | ServerGetCurrentNoMapError
  | ServerGetCurrentNotFoundError
  | WrappedErrorMessage (Message : String) (Err : Error)
  | foreign (description : String)
deriving DecidableEq

/-- The innermost error of a chain of `WrappedErrorMessage`s. -/
def Error.cause : Error → Error
  | .WrappedErrorMessage _ e => e.cause
  | e => e

/-! ## Data model -/

structure ServerEndpointList where
  API : String
  Authorization : String
  Token : String
deriving DecidableEq

/-- The anonymous struct of field `API` of `ServerEndpoints`. -/
structure ServerEndpointsAPI where
  V2 : ServerEndpointList
  V3 : ServerEndpointList
deriving DecidableEq

structure ServerEndpoints where
  API : ServerEndpointsAPI
  V : String
deriving DecidableEq

structure ServerProfile where
  ID : String
  DisplayName : String
  VPNProtoList : List String
  DefaultGateway : Bool
deriving DecidableEq

/-- The anonymous struct of field `Info` of `ServerProfileInfo`. -/
structure ServerProfileInfoInfo where
  ProfileList : List ServerProfile
deriving DecidableEq

structure ServerProfileInfo where
  Current : String
  Info : ServerProfileInfoInfo
deriving DecidableEq

/-- The base type for servers. `DisplayName` (a Go map that is only copied)
is kept as its list of entries; the field `Type` is named `Type_`. -/
structure ServerBase where
  URL : String
  DisplayName : List (String × String)
  SupportContact : List String
  Endpoints : ServerEndpoints
  Profiles : ServerProfileInfo
  ProfilesRaw : String
  StartTime : Time
  EndTime : Time
  Type_ : String
deriving DecidableEq

/-- The type `ServerType` (an `int8`) with its three declared values. -/
abbrev ServerType := Int

def CustomServerType : ServerType := 0

def InstituteAccessServerType : ServerType := 1

def SecureInternetServerType : ServerType := 2

/-- Modelled from the spec: the token store of package `oauth`, which is not
among the sources: access token, refresh token and expiry. The fields `Access`
and `ExpiredTimestamp` are the ones `common.go` reads and writes. -/
structure OAuthToken where
  Access : String
  Refresh : String
  ExpiredTimestamp : Time
deriving DecidableEq

/-- Modelled from the spec: the OAuth engine of package `oauth`, which is not
among the sources: the two endpoint URLs it is created with and its token
store. -/
structure OAuth where
  BaseAuthorizationURL : String
  TokenURL : String
  Token : OAuthToken
deriving DecidableEq

/-- Modelled from the spec: `OAuth.Init` of package `oauth`, which is not among
the sources. The engine is "created with an issuer's two endpoint URLs", and a
refresh keeps the "existing OAuth Engine and any valid tokens": the two URLs
are stored and the token store is not touched. -/
def OAuth.Init (oauth : OAuth) (baseAuthorizationURL tokenURL : String) : OAuth :=
  { oauth with BaseAuthorizationURL := baseAuthorizationURL, TokenURL := tokenURL }

/-- An institute access server (a custom server has the same type). -/
structure InstituteAccessServer where
  OAuth : EduVPN.OAuth
  Base : ServerBase
deriving DecidableEq

/-- The collection `InstituteAccessServers`: a map from URL to server pointer
and the current URL. -/
structure InstituteAccessServers where
  Map : Option (String → Option (Option InstituteAccessServer))
  CurrentURL : String

/-- Modelled from the spec: the secure-internet home server, whose declaration
is not among the sources: one OAuth engine, the chosen location (the field
`CurrentLocation` read by `GetSecureLocation`) and the map of known locations,
each with its server base. -/
structure SecureInternetHomeServer where
  OAuth : EduVPN.OAuth
  CurrentLocation : String
  BaseMap : String → Option ServerBase

/-- The registry of servers. -/
structure Servers where
  CustomServers : InstituteAccessServers
  InstituteServers : InstituteAccessServers
  SecureInternetHomeServer : SecureInternetHomeServer
  IsType : ServerType

/-- The interface `Server`, as the closed sum of the types that satisfy it. -/
inductive Server where
  | institute (s : InstituteAccessServer)
  | secure (s : SecureInternetHomeServer)

/-- The method `GetOAuth`. -/
def Server.GetOAuth : Server → OAuth
  | .institute s => s.OAuth
  | .secure s => s.OAuth

/-- The method `GetBase`. For an institute access server it is
`&institute.Base, nil`. For the secure-internet server it is modelled from the
spec (the method is not among the sources): the base of the chosen location,
or an error when that location has none. -/
def Server.GetBase : Server → Except Error ServerBase
  | .institute s => .ok s.Base
  | .secure s =>
    match s.BaseMap s.CurrentLocation with
    | some base => .ok base
    | none => .error (.WrappedErrorMessage "failed getting current secure internet home base"
        (.foreign "secure internet base not found"))

/-- A write through the pointer returned by `GetBase`. -/
def Server.setBase : Server → ServerBase → Server
  | .institute s, base => .institute { s with Base := base }
  | .secure s, base =>
    .secure { s with BaseMap := fun l => if l = s.CurrentLocation then some base else s.BaseMap l }

/-- A WireGuard key (`wgtypes.Key`), as its bytes. -/
structure Key where
  bytes : List Nat
deriving DecidableEq

/-- The calls that leave the embedded sources: the clock, the server API and
the WireGuard helpers. Each field is the result the call gives. The API calls
of `APIConnectWireguard` and `APIConnectOpenVPN` follow the contract of the
spec (a function of the server, the profile and the flags, giving body, tag,
expiry and error); `APIInfo` may rewrite the server it is given. -/
structure Env where
  GetCurrentTime : Time
  APIGetEndpoints : String → Except Error ServerEndpoints
  APIInfo : Server → Server × Option Error
  APIConnectWireguard : Server → String → String → Bool → Bool →
    String × String × Time × Option Error
  APIConnectOpenVPN : Server → String → Bool → String × Time × Option Error
  GenerateKey : Key × Option Error
  PublicKeyString : Key → String
  ConfigAddKey : String → Key → String

/-! ## Session policy -/

/-- The function `ShouldRenewButton`. -/
def ShouldRenewButton (env : Env) (server : Server) : Bool :=
  match server.GetBase with
  | .error _ => false
  | .ok base =>
    let current := env.GetCurrentTime
    -- Session is expired
    if !current.Before base.EndTime then true
    -- 30 minutes have not passed
    else if !current.After (base.StartTime.Add (30 * Minute)) then false
    -- Session will not expire today
    else if !(current.Add (24 * Hour)).After base.EndTime then false
    else
      -- Session duration is less than 24 hours but not 75% has passed
      let duration := base.EndTime.Sub base.StartTime
      let percentTime := base.StartTime.Add (wrapInt64 (Int.tdiv duration 4 * 3))
      if decide (duration < 24 * Hour) && !current.After percentTime then false
      else true

/-! ## Server registry -/

/-- Modelled from the spec: `HasSecureLocation`, which is not among the
sources: a location is set when the chosen location is not empty ("an empty
secure-internet location" is not found). -/
def Servers.HasSecureLocation (servers : Servers) : Bool :=
  servers.SecureInternetHomeServer.CurrentLocation != ""

/-- The method `Servers.GetCurrentServer`. -/
def Servers.GetCurrentServer (servers : Servers) : Option Server × Option Error :=
  let errorMessage := "failed getting current server"
  if servers.IsType = SecureInternetServerType then
    if !servers.HasSecureLocation then
      (none, some (.WrappedErrorMessage errorMessage .ServerGetCurrentNotFoundError))
    else
      (some (.secure servers.SecureInternetHomeServer), none)
  else
    let serversStruct :=
      if servers.IsType = CustomServerType then servers.CustomServers
      else servers.InstituteServers
    let currentServerURL := serversStruct.CurrentURL
    match serversStruct.Map with
    | none => (none, some (.WrappedErrorMessage errorMessage .ServerGetCurrentNoMapError))
    | some bases =>
      match bases currentServerURL with
      | some (some server) => (some (.institute server), none)
      | _ => (none, some (.WrappedErrorMessage errorMessage .ServerGetCurrentNotFoundError))

/-- The fields of `types.DiscoveryServer` (declared outside the sources) that
the registry reads. -/
structure DiscoveryServer where
  BaseURL : String
  CountryCode : String
  DisplayName : List (String × String)
  SupportContact : List String
  Type_ : String
deriving DecidableEq

/-- The zero value `InstituteAccessServer{}`. -/
def InstituteAccessServer.zero : InstituteAccessServer :=
  { OAuth := { BaseAuthorizationURL := "", TokenURL := "",
               Token := { Access := "", Refresh := "", ExpiredTimestamp := ⟨0⟩ } },
    Base := { URL := "", DisplayName := [], SupportContact := [],
              Endpoints := { API := { V2 := ⟨"", "", ""⟩, V3 := ⟨"", "", ""⟩ }, V := "" },
              Profiles := { Current := "", Info := { ProfileList := [] } },
              ProfilesRaw := "", StartTime := ⟨0⟩, EndTime := ⟨0⟩, Type_ := "" } }

/-- The method `InstituteAccessServer.init`: the server after the call and the
error returned. The four base fields are written before the endpoints are
fetched, so they are written also when the fetch fails. -/
def InstituteAccessServer.init (env : Env) (institute : InstituteAccessServer)
    (url : String) (displayName : List (String × String)) (serverType : String)
    (supportContact : List String) : InstituteAccessServer × Option Error :=
  let errorMessage := "failed initializing institute server " ++ url
  let institute : InstituteAccessServer :=
    { institute with
      Base := { institute.Base with
                URL := url, DisplayName := displayName,
                SupportContact := supportContact, Type_ := serverType } }
  match env.APIGetEndpoints url with
  | .error endpointsErr => (institute, some (.WrappedErrorMessage errorMessage endpointsErr))
  | .ok endpoints =>
    let institute : InstituteAccessServer :=
      { institute with
        OAuth := institute.OAuth.Init endpoints.API.V3.Authorization endpoints.API.V3.Token }
    ({ institute with Base := { institute.Base with Endpoints := endpoints } }, none)

/-- The lookup `servers.Map[url]` (on a nil map nothing exists). -/
def InstituteAccessServers.lookup (servers : InstituteAccessServers) (url : String) :
    Option (Option InstituteAccessServer) :=
  match servers.Map with
  | none => none
  | some m => m url

/-- The assignment `servers.Map[url] = server` on a map that is not nil. -/
def InstituteAccessServers.store (servers : InstituteAccessServers) (url : String)
    (server : InstituteAccessServer) : InstituteAccessServers :=
  { servers with Map := some (fun u => if u = url then some (some server) else servers.lookup u) }

/-- The statement `if servers.Map == nil then servers.Map = make(...)`. -/
def InstituteAccessServers.ensureMap (servers : InstituteAccessServers) :
    InstituteAccessServers :=
  match servers.Map with
  | none => { servers with Map := some (fun _ => none) }
  | some _ => servers

/-- A write through the pointer `toAddServers` of `addInstituteAndCustom`. -/
def Servers.setToAddServers (servers : Servers) (isCustom : Bool)
    (toAddServers : InstituteAccessServers) : Servers :=
  if isCustom then { servers with CustomServers := toAddServers }
  else { servers with InstituteServers := toAddServers }

/-- The method `Servers.addInstituteAndCustom`: the registry after the call and
the pair returned; `none` is the panic of `server.init` on a nil pointer
stored in the map. -/
def Servers.addInstituteAndCustom (env : Env) (servers : Servers)
    (discoServer : DiscoveryServer) (isCustom : Bool) :
    Option (Servers × Option Server × Option Error) :=
  let url := discoServer.BaseURL
  let errorMessage := "failed adding institute access server: " ++ url
  let toAddServers := if isCustom then servers.CustomServers else servers.InstituteServers
  let serverType := if isCustom then CustomServerType else InstituteAccessServerType
  let toAddServers := toAddServers.ensureMap
  match toAddServers.lookup url with
  | some none => none
  | some (some server) =>
    -- the entry exists: init writes through the stored pointer
    match server.init env url discoServer.DisplayName discoServer.Type_
        discoServer.SupportContact with
    | (server, some instituteInitErr) =>
      some (servers.setToAddServers isCustom (toAddServers.store url server), none,
        some (.WrappedErrorMessage errorMessage instituteInitErr))
    | (server, none) =>
      some ({ servers.setToAddServers isCustom (toAddServers.store url server) with
              IsType := serverType }, some (.institute server), none)
  | none =>
    -- initialize the server if it doesn't exist yet
    match InstituteAccessServer.zero.init env url discoServer.DisplayName discoServer.Type_
        discoServer.SupportContact with
    | (_, some instituteInitErr) =>
      some (servers.setToAddServers isCustom toAddServers, none,
        some (.WrappedErrorMessage errorMessage instituteInitErr))
    | (server, none) =>
      some ({ servers.setToAddServers isCustom (toAddServers.store url server) with
              IsType := serverType }, some (.institute server), none)

/-- The method `Servers.AddInstituteAccessServer`. -/
def Servers.AddInstituteAccessServer (env : Env) (servers : Servers)
    (instituteServer : DiscoveryServer) : Option (Servers × Option Server × Option Error) :=
  servers.addInstituteAndCustom env instituteServer false

/-- The method `Servers.AddCustomServer`. -/
def Servers.AddCustomServer (env : Env) (servers : Servers)
    (customServer : DiscoveryServer) : Option (Servers × Option Server × Option Error) :=
  servers.addInstituteAndCustom env customServer true

/-- The method `InstituteAccessServers.Remove`. The builtin `delete` does
nothing on a nil map, which stays nil. -/
def InstituteAccessServers.Remove (servers : InstituteAccessServers) (url : String) :
    InstituteAccessServers :=
  -- Reset the current url
  let servers : InstituteAccessServers :=
    if servers.CurrentURL = url then { servers with CurrentURL := "" } else servers
  -- Delete the url from the map
  match servers.Map with
  | none => servers
  | some m => { servers with Map := some (fun u => if u = url then none else m u) }

/-- The method `Servers.RemoveInstituteAccess`. -/
def Servers.RemoveInstituteAccess (servers : Servers) (url : String) : Servers :=
  { servers with InstituteServers := servers.InstituteServers.Remove url }

/-! ## Profiles and configuration -/

/-- The method `ServerProfile.supportsProtocol`. -/
def ServerProfile.supportsProtocol (profile : ServerProfile) (protocol : String) : Bool :=
  profile.VPNProtoList.any (fun proto => proto == protocol)

/-- The method `ServerProfile.supportsWireguard`. -/
def ServerProfile.supportsWireguard (profile : ServerProfile) : Bool :=
  profile.supportsProtocol "wireguard"

/-- The method `ServerProfile.supportsOpenVPN`. -/
def ServerProfile.supportsOpenVPN (profile : ServerProfile) : Bool :=
  profile.supportsProtocol "openvpn"

/-- The function `getCurrentProfile`: the first profile of the list whose id
is the selected one. -/
def getCurrentProfile (server : Server) : Except Error ServerProfile :=
  let errorMessage := "failed getting current profile"
  match server.GetBase with
  | .error baseErr => .error (.WrappedErrorMessage errorMessage baseErr)
  | .ok base =>
    let profileID := base.Profiles.Current
    match base.Profiles.Info.ProfileList.find? (fun profile => profile.ID == profileID) with
    | some profile => .ok profile
    | none =>
      .error (.WrappedErrorMessage errorMessage (.ServerGetCurrentProfileNotFoundError profileID))

/-- The function `wireguardGetConfig`: the server after the call, then the
triple returned. -/
def wireguardGetConfig (env : Env) (server : Server) (preferTCP supportsOpenVPN : Bool) :
    Server × String × String × Option Error :=
  let errorMessage := "failed getting server WireGuard configuration"
  match server.GetBase with
  | .error baseErr => (server, "", "", some (.WrappedErrorMessage errorMessage baseErr))
  | .ok base =>
    let profile_id := base.Profiles.Current
    match env.GenerateKey with
    | (_, some wireguardErr) =>
      (server, "", "", some (.WrappedErrorMessage errorMessage wireguardErr))
    | (wireguardKey, none) =>
      let wireguardPublicKey := env.PublicKeyString wireguardKey
      match env.APIConnectWireguard server profile_id wireguardPublicKey preferTCP
          supportsOpenVPN with
      | (_, _, _, some configErr) =>
        (server, "", "", some (.WrappedErrorMessage errorMessage configErr))
      | (config, content, expires, none) =>
        -- Store start and end time
        let base := { base with StartTime := env.GetCurrentTime, EndTime := expires }
        let config := if content == "wireguard" then env.ConfigAddKey config wireguardKey
          else config
        (server.setBase base, config, content, none)

/-- The function `openVPNGetConfig`: the server after the call, then the
triple returned. The start and end time are stored before the error of the
connect call is looked at. -/
def openVPNGetConfig (env : Env) (server : Server) (preferTCP : Bool) :
    Server × String × String × Option Error :=
  let errorMessage := "failed getting server OpenVPN configuration"
  match server.GetBase with
  | .error baseErr => (server, "", "", some (.WrappedErrorMessage errorMessage baseErr))
  | .ok base =>
    let profile_id := base.Profiles.Current
    match env.APIConnectOpenVPN server profile_id preferTCP with
    | (configOpenVPN, expires, configErr) =>
      -- Store start and end time
      let base := { base with StartTime := env.GetCurrentTime, EndTime := expires }
      match configErr with
      | some configErr =>
        (server.setBase base, "", "", some (.WrappedErrorMessage errorMessage configErr))
      | none => (server.setBase base, configOpenVPN, "openvpn", none)

/-- The function `HasValidProfile`: the server after the call, then the pair
returned; `none` is the panic of `ProfileList[0]` on an empty list. -/
def HasValidProfile (env : Env) (server : Server) : Option (Server × Bool × Option Error) :=
  let errorMessage := "failed has valid profile check"
  -- Get new profiles using the info call
  match env.APIInfo server with
  | (server, some infoErr) => some (server, false, some (.WrappedErrorMessage errorMessage infoErr))
  | (server, none) =>
    match server.GetBase with
    | .error baseErr => some (server, false, some (.WrappedErrorMessage errorMessage baseErr))
    | .ok base =>
      -- If there was a profile chosen and it doesn't exist anymore, reset it
      let base :=
        if base.Profiles.Current != "" then
          match getCurrentProfile server with
          | .error _ => { base with Profiles := { base.Profiles with Current := "" } }
          | .ok _ => base
        else base
      -- Set the current profile if there is only one profile or profile is already selected
      if base.Profiles.Info.ProfileList.length == 1 || base.Profiles.Current != "" then
        -- Set the first profile if none is selected
        if base.Profiles.Current == "" then
          match base.Profiles.Info.ProfileList[0]? with
          | none => none
          | some first =>
            some (server.setBase { base with Profiles := { base.Profiles with Current := first.ID } },
              true, none)
        else some (server.setBase base, true, none)
      else some (server.setBase base, false, none)

/-- The function `GetConfig`: the server after the call, then the triple
returned. -/
def GetConfig (env : Env) (server : Server) (preferTCP : Bool) :
    Server × String × String × Option Error :=
  let errorMessage := "failed getting an OpenVPN/WireGuard configuration"
  match getCurrentProfile server with
  | .error profileErr => (server, "", "", some (.WrappedErrorMessage errorMessage profileErr))
  | .ok profile =>
    let supportsOpenVPN := profile.supportsOpenVPN
    let supportsWireguard := profile.supportsWireguard
    match (if supportsWireguard then
        -- A wireguard connect call needs to generate a wireguard key and add it to the config
        wireguardGetConfig env server preferTCP supportsOpenVPN
      else openVPNGetConfig env server preferTCP) with
    | (server, _, _, some configErr) =>
      (server, "", "", some (.WrappedErrorMessage errorMessage configErr))
    | (server, config, configType, none) => (server, config, configType, none)

/-! ## Reference decision of the renewal policy -/

/-- The renewal decision in the words of the specification, over the
nanosecond counts of the start time `s`, the end time `e` and the current time
`c`, in exact integer arithmetic: true if `c >= e`; otherwise false if
`c <= s + 30min`; otherwise false if `c + 24h <= e`; otherwise false if
`(e - s) < 24h` and `c <= s + ((e - s) / 4) * 3`; otherwise true. -/
def shouldRenewReference (s e c : Int) : Bool :=
  if c ≥ e then true
  else if c ≤ s + 30 * Minute then false
  else if c + 24 * Hour ≤ e then false
  else if e - s < 24 * Hour ∧ c ≤ s + Int.tdiv (e - s) 4 * 3 then false
  else true

/-! ## Signature verification (`verify.go`) -/

/-- An error value of a library (`minisign`, `fmt`), as its message. -/
abbrev LibError := String

/-- The type `VerifyErrCode` (an `int`) with its nine declared values. -/
abbrev VerifyErrCode := Int

def ErrUnknownExpectedFileName : VerifyErrCode := 0

def ErrInvalidSignatureFormat : VerifyErrCode := 1

def ErrInvalidSignatureAlgorithm : VerifyErrCode := 2

def ErrInvalidPublicKey : VerifyErrCode := 3

def ErrInvalidSignature : VerifyErrCode := 4

def ErrInvalidTrustedComment : VerifyErrCode := 5

def ErrWrongFileName : VerifyErrCode := 6

def ErrTooOld : VerifyErrCode := 7

def ErrWrongKey : VerifyErrCode := 8

/-- The nine declared values of `VerifyErrCode`. -/
def declaredVerifyErrCodes : List VerifyErrCode :=
  [ErrUnknownExpectedFileName, ErrInvalidSignatureFormat, ErrInvalidSignatureAlgorithm,
    ErrInvalidPublicKey, ErrInvalidSignature, ErrInvalidTrustedComment, ErrWrongFileName,
    ErrTooOld, ErrWrongKey]

/-- The type `VerifyError`; `Cause` is nil (`none`) or a library error. -/
structure VerifyError where
  Code : VerifyErrCode
  Message : String
  Cause : Option LibError
deriving DecidableEq

/-- The type `minisign.Signature`; byte arrays are lists of byte values, and the
field `Signature` is named `SignatureBytes`. -/
structure Signature where
  UntrustedComment : String
  SignatureAlgorithm : List Nat
  KeyId : List Nat
  SignatureBytes : List Nat
  TrustedComment : String
  GlobalSignature : List Nat
deriving DecidableEq

/-- The type `minisign.PublicKey`; byte arrays are lists of byte values, and the
field `PublicKey` is named `PublicKeyBytes`. -/
structure PublicKey where
  SignatureAlgorithm : List Nat
  KeyId : List Nat
  PublicKeyBytes : List Nat
deriving DecidableEq

/-- The library calls of `verify.go`: `minisign.DecodeSignature`,
`minisign.NewPublicKey`, the method `PublicKey.Verify`, `fmt.Sscanf` with one
`%d` into a `uint64` and one `%s` (input, then format; on success the number
and the string scanned) and the verb `%q` of `fmt.Sprintf`. -/
structure VerifyEnv where
  DecodeSignature : String → Except LibError Signature
  NewPublicKey : String → Except LibError PublicKey
  Verify : PublicKey → List Nat → Signature → Bool × Option LibError
  Sscanf : String → String → Except LibError (Nat × String)
  Quote : String → String

/-- The two calls of `fmt.Sscanf` on the trusted comment in `verifyWithKeys`:
the format with `time:` first and, when that fails, the format with
`timestamp:`; the result is the sign time and the file name scanned, or the
error of the second call. -/
def scanTrustedComment (env : VerifyEnv) (trustedComment : String) :
    Except LibError (Nat × String) :=
  match env.Sscanf trustedComment "trusted comment: time:%d\tfile:%s" with
  | .ok r => .ok r
  | .error _ => env.Sscanf trustedComment "trusted comment: timestamp:%d\tfile:%s"

/-- The loop `for _, keyStr := range allowedPublicKeys` of `verifyWithKeys`,
with the statement that follows it. -/
def verifyWithKeysLoop (env : VerifyEnv) (sig : Signature) (signedJson : List Nat)
    (expectedFileName : String) (minSignTime : Nat) : List String → Bool × Option VerifyError
  | [] => (false, some ⟨ErrWrongKey, "signature was created with an unknown key", none⟩)
  | keyStr :: rest =>
    match env.NewPublicKey keyStr with
    | .error err =>
      (false, some ⟨ErrInvalidPublicKey, "internal error: could not create public key",
        some err⟩)
    | .ok key =>
      if sig.KeyId ≠ key.KeyId then
        verifyWithKeysLoop env sig signedJson expectedFileName minSignTime rest
      else
        match env.Verify key signedJson sig with
        | (false, err) => (false, some ⟨ErrInvalidSignature, "invalid signature", err⟩)
        | (true, _) =>
          -- sigFileName cannot have spaces
          match scanTrustedComment env sig.TrustedComment with
          | .error err =>
            (false, some ⟨ErrInvalidTrustedComment,
              "failed to interpret trusted comment (" ++ env.Quote sig.TrustedComment ++ ")",
              some err⟩)
          | .ok (signTime, sigFileName) =>
            if sigFileName ≠ expectedFileName then
              (false, some ⟨ErrWrongFileName,
                "signature was on file " ++ env.Quote sigFileName ++ " instead of expected " ++
                  env.Quote expectedFileName, none⟩)
            else if signTime < minSignTime then
              (false, some ⟨ErrTooOld,
                "signature was created at " ++ toString signTime ++ " < minimum time (" ++
                  toString minSignTime ++ ")", none⟩)
            else (true, none)

/-- The function `verifyWithKeys`. The bytes `'E'`, `'D'` are 69, 68. -/
def verifyWithKeys (env : VerifyEnv) (signatureFileContent : String) (signedJson : List Nat)
    (expectedFileName : String) (minSignTime : Nat) (allowedPublicKeys : List String) :
    Bool × Option VerifyError :=
  if expectedFileName ≠ "server_list.json" ∧ expectedFileName ≠ "organization_list.json" then
    (false, some ⟨ErrUnknownExpectedFileName,
      "invalid expected file name (" ++ expectedFileName ++ ")", none⟩)
  else
    match env.DecodeSignature signatureFileContent with
    | .error err => (false, some ⟨ErrInvalidSignatureFormat, "invalid signature format", some err⟩)
    | .ok sig =>
      if sig.SignatureAlgorithm ≠ [69, 68] then
        (false, some ⟨ErrInvalidSignatureAlgorithm,
          "BLAKE2b-prehashed EdDSA signature required", none⟩)
      else verifyWithKeysLoop env sig signedJson expectedFileName minSignTime allowedPublicKeys

/-- The function `Verify`; `none` is its `panic(err)`. -/
def Verify (env : VerifyEnv) (signatureFileContent : String) (signedJson : List Nat)
    (expectedFileName : String) (minSignTime : Nat) : Option (Bool × Option VerifyError) :=
  let keyStrs := [
    "RWRtBSX1alxyGX+Xn3LuZnWUT0w//B6EmTJvgaAxBMYzlQeI+jdrO6KF",
    "RWQKqtqvd0R7rUDp0rWzbtYPA3towPWcLDCl7eY9pBMMI/ohCmrS0WiM"]
  match verifyWithKeys env signatureFileContent signedJson expectedFileName minSignTime
      keyStrs with
  | (valid, some err) =>
    if err.Code = ErrInvalidPublicKey then none -- This should not happen
    else some (valid, some err)
  | (valid, none) => some (valid, none)

/-! ## OAuth callback -/

/-- The three typed errors of the callback (`oauth.CallbackParameterError`,
`oauth.CallbackStateMatchError`, `oauth.CallbackISSMatchError` in the test). -/
inductive CallbackError where
  | CallbackParameterError
  | CallbackStateMatchError
  | CallbackISSMatchError
deriving DecidableEq

/-- Modelled from the spec: the validation of the callback request in
`AwaitCallback`, of package `oauth`, which is not among the sources. The spec
names three checks: presence of the `code` and `state` query parameters,
"missing either fails with `CallbackParameterError`"; `state` "equals the
value generated in `BeginAuthorization`, mismatch fails with
`CallbackStateMatchError`"; and "if an `iss` parameter is present, it equals
the expected issuer identity exactly, mismatch fails with
`CallbackISSMatchError`". The presence check comes first, as in the spec. The
issuer is compared before the state: `TestConnectOAuthParameters` in
`client/client_test.go`, the one place of the sources that exercises the
handler, expects the issuer-match error for the callback `iss=37`, `code=42`,
`state=21`, whose state (the invalid state of the row before) and issuer are
both wrong. The query parameters are a list of name and value; the result is
the authorization code. -/
def validateCallback (generatedState expectedIssuer : String)
    (parameters : List (String × String)) : Except CallbackError String :=
  match parameters.lookup "code", parameters.lookup "state" with
  | some code, some state =>
    match parameters.lookup "iss" with
    | some iss =>
      if iss ≠ expectedIssuer then .error .CallbackISSMatchError
      else if state ≠ generatedState then .error .CallbackStateMatchError
      else .ok code
    | none =>
      if state ≠ generatedState then .error .CallbackStateMatchError else .ok code
  | _, _ => .error .CallbackParameterError

/-! ## Sample values -/

/-- The collection the current tag selects in `GetCurrentServer`: the custom
servers for the custom tag, the institute access servers otherwise. -/
def Servers.selected (servers : Servers) : InstituteAccessServers :=
  if servers.IsType = CustomServerType then servers.CustomServers else servers.InstituteServers

/-- The collection that `AddCustomServer` (`isCustom` true) or
`AddInstituteAccessServer` (`isCustom` false) writes to. -/
def Servers.collection (servers : Servers) (isCustom : Bool) : InstituteAccessServers :=
  if isCustom then servers.CustomServers else servers.InstituteServers

/-- The zero value `SecureInternetHomeServer{}`. -/
def SecureInternetHomeServer.zero : SecureInternetHomeServer :=
  { OAuth := InstituteAccessServer.zero.OAuth, CurrentLocation := "", BaseMap := fun _ => none }

/-- The zero value `Servers{}`, the registry of a client that has added no
server yet: both maps are nil and the tag is 0, the custom tag. -/
def Servers.zero : Servers :=
  { CustomServers := { Map := none, CurrentURL := "" },
    InstituteServers := { Map := none, CurrentURL := "" },
    SecureInternetHomeServer := SecureInternetHomeServer.zero,
    IsType := 0 }


/-- An environment with the clock at `now` and every outside call failing. -/
def offlineEnv (now : Time) : Env :=
  { GetCurrentTime := now,
    APIGetEndpoints := fun _ => .error (.foreign "offline"),
    APIInfo := fun server => (server, some (.foreign "offline")),
    APIConnectWireguard := fun _ _ _ _ _ => ("", "", ⟨0⟩, some (.foreign "offline")),
    APIConnectOpenVPN := fun _ _ _ => ("", ⟨0⟩, some (.foreign "offline")),
    GenerateKey := (⟨[]⟩, some (.foreign "offline")),
    PublicKeyString := fun _ => "",
    ConfigAddKey := fun config _ => config }

/-- An institute access server whose session runs from `start` to `finish`. -/
def sessionServer (start finish : Time) : Server :=
  .institute { InstituteAccessServer.zero with
    Base := { InstituteAccessServer.zero.Base with StartTime := start, EndTime := finish } }

/-- Endpoints as a server may publish them. -/
def sampleEndpoints : ServerEndpoints :=
  { API := { V2 := ⟨"", "", ""⟩,
             V3 := ⟨"https://a/api", "https://a/authorize", "https://a/token"⟩ },
    V := "3" }

/-- An environment as `offlineEnv` in which the endpoints can be fetched. -/
def onlineEnv (now : Time) : Env :=
  { offlineEnv now with APIGetEndpoints := fun _ => .ok sampleEndpoints }

/-- A discovery entry for the URL `https://a/`. -/
def sampleDisco : DiscoveryServer :=
  { BaseURL := "https://a/", CountryCode := "", DisplayName := [("en", "A")],
    SupportContact := ["mailto:a@a"], Type_ := "institute_access" }

/-- A server that holds tokens. -/
def sampleHeld : InstituteAccessServer :=
  { InstituteAccessServer.zero with
    OAuth := { InstituteAccessServer.zero.OAuth with
               Token := { Access := "access", Refresh := "refresh", ExpiredTimestamp := ⟨5⟩ } } }

/-- A registry whose custom collection holds `sampleHeld` under `https://a/`. -/
def sampleRegistry : Servers :=
  { Servers.zero with
    CustomServers :=
      { Map := some (fun u => if u = "https://a/" then some (some sampleHeld) else none),
        CurrentURL := "https://a/" } }

/-- The outcome of adding `sampleDisco` as a custom server to `sampleRegistry`
in `onlineEnv`. -/
def sampleAdded : Servers × Option Server × Option Error :=
  (sampleRegistry.AddCustomServer (onlineEnv ⟨0⟩) sampleDisco).getD (sampleRegistry, none, none)

/-- The outcome of adding `sampleDisco` as an institute access server to
`sampleRegistry` in `onlineEnv`. -/
def sampleAddedInstitute : Servers × Option Server × Option Error :=
  (sampleRegistry.AddInstituteAccessServer (onlineEnv ⟨0⟩) sampleDisco).getD
    (sampleRegistry, none, none)

/-- An environment as `offlineEnv` in which the profile fetch succeeds and
leaves the server as it is. -/
def profileEnv : Env :=
  { offlineEnv ⟨0⟩ with APIInfo := fun server => (server, none) }

/-- A profile with the given id and protocols. -/
def sampleProfile (id : String) (protocols : List String) : ServerProfile :=
  { ID := id, DisplayName := id, VPNProtoList := protocols, DefaultGateway := true }

/-- The base of `profileServer`. -/
def profileBase (current : String) (profiles : List ServerProfile) : ServerBase :=
  { InstituteAccessServer.zero.Base with
    Profiles := { Current := current, Info := { ProfileList := profiles } } }

/-- An institute access server with the given selected id and profile list. -/
def profileServer (current : String) (profiles : List ServerProfile) : Server :=
  .institute { InstituteAccessServer.zero with Base := profileBase current profiles }

/-- An environment in which every outside call succeeds: the WireGuard connect
call answers with a WireGuard body, the OpenVPN connect call with an OpenVPN
body, both expiring at `expires`, and `ConfigAddKey` appends a line. -/
def connectEnv (now expires : Time) : Env :=
  { GetCurrentTime := now,
    APIGetEndpoints := fun _ => .ok sampleEndpoints,
    APIInfo := fun server => (server, none),
    APIConnectWireguard := fun _ _ _ _ _ => ("[Interface]", "wireguard", expires, none),
    APIConnectOpenVPN := fun _ _ _ => ("remote a 1194 udp", expires, none),
    GenerateKey := (⟨[1, 2, 3]⟩, none),
    PublicKeyString := fun _ => "public",
    ConfigAddKey := fun config _ => config ++ " PrivateKey = 123" }

/-- An institute access server with a session from `start` to `finish`, the
given selected id and profile list. -/
def timedProfileServer (start finish : Time) (current : String)
    (profiles : List ServerProfile) : Server :=
  .institute { InstituteAccessServer.zero with
    Base := { profileBase current profiles with StartTime := start, EndTime := finish } }

/-- A signature with algorithm `ED` and the key id 109, 5, 37, ... -/
def sampleSignature : Signature :=
  { UntrustedComment := "untrusted comment: signature", SignatureAlgorithm := [69, 68],
    KeyId := [109, 5, 37, 245, 106, 92, 114, 25], SignatureBytes := [],
    TrustedComment := "trusted comment: timestamp:1000\tfile:server_list.json",
    GlobalSignature := [] }

/-- Library calls for the samples: the text `sig` decodes to `sampleSignature`;
the key string `bad` is no key, the second key of `Verify` has the key id
10, 170, 218, ... and every other key string the key id of `sampleSignature`; every signature
verifies; the trusted comment scans with the format `timestamp:` only, to the
time 1000 and the file name `server_list.json`. -/
def sampleVerifyEnv : VerifyEnv :=
  { DecodeSignature := fun text =>
      if text = "sig" then .ok sampleSignature else .error "invalid signature",
    NewPublicKey := fun keyStr =>
      if keyStr = "bad" then .error "invalid key"
      else if keyStr = "RWQKqtqvd0R7rUDp0rWzbtYPA3towPWcLDCl7eY9pBMMI/ohCmrS0WiM" then
        .ok ⟨[69, 100], [10, 170, 218, 175, 119, 68, 123, 173], []⟩
      else .ok ⟨[69, 100], [109, 5, 37, 245, 106, 92, 114, 25], []⟩,
    Verify := fun _ _ _ => (true, none),
    Sscanf := fun _ format =>
      if format = "trusted comment: timestamp:%d\tfile:%s" then .ok (1000, "server_list.json")
      else .error "input does not match format",
    Quote := fun text => text }

/-- A registry with the institute-access tag whose institute collection holds
`sampleHeld` under the current URL `https://a/` and nothing else. -/
def sampleInstituteRegistry : Servers :=
  { Servers.zero with
    InstituteServers :=
      { Map := some (fun u => if u = "https://a/" then some (some sampleHeld) else none),
        CurrentURL := "https://a/" },
    IsType := InstituteAccessServerType }

/-! ## Theorems: session renewal -/

/-- The decision of `ShouldRenewButton` when the base lookup succeeds, written
over the nanosecond counts of the current, start and end time. -/
theorem shouldRenewButton_eq (env : Env) (server : Server) (base : ServerBase)
    (hbase : server.GetBase = .ok base) :
    ShouldRenewButton env server =
      (if base.EndTime.nsec ≤ env.GetCurrentTime.nsec then true
       else if env.GetCurrentTime.nsec ≤ base.StartTime.nsec + 30 * Minute then false
       else if env.GetCurrentTime.nsec + 24 * Hour ≤ base.EndTime.nsec then false
       else if base.EndTime.Sub base.StartTime < 24 * Hour ∧
          env.GetCurrentTime.nsec ≤ base.StartTime.nsec +
            wrapInt64 (Int.tdiv (base.EndTime.Sub base.StartTime) 4 * 3) then false
       else true) := by
  simp only [ShouldRenewButton, hbase, Time.Before, Time.After, Time.Add]
  by_cases h1 : base.EndTime.nsec ≤ env.GetCurrentTime.nsec
  · simp [h1, not_lt.mpr h1]
  · have h1b : env.GetCurrentTime.nsec < base.EndTime.nsec := not_le.mp h1
    by_cases h2 : env.GetCurrentTime.nsec ≤ base.StartTime.nsec + 30 * Minute
    · simp [h1, h1b, h2, not_lt.mpr h2]
    · have h2b : base.StartTime.nsec + 30 * Minute < env.GetCurrentTime.nsec := not_le.mp h2
      by_cases h3 : env.GetCurrentTime.nsec + 24 * Hour ≤ base.EndTime.nsec
      · simp [h1, h1b, h2, h2b, h3, not_lt.mpr h3]
      · have h3b : base.EndTime.nsec < env.GetCurrentTime.nsec + 24 * Hour := not_le.mp h3
        simp [h1, h1b, h2, h2b, h3, h3b]

/-- A difference within the range of `time.Duration` is not saturated by `Sub`. -/
theorem sub_exact (t u : Time) (hlo : 0 ≤ t.nsec - u.nsec)
    (hhi : t.nsec - u.nsec ≤ maxDuration) : t.Sub u = t.nsec - u.nsec := by
  unfold Time.Sub
  have hmin : (minDuration : Int) < 0 := by decide
  simp only
  rw [if_neg (by omega), if_neg (by omega)]

/-- The threshold `(duration / 4) * 3` of a non-negative duration below one
day: no wrap-around, and the truncating division is the floor. -/
theorem threshold_exact (d : Int) (h0 : 0 ≤ d) (h1 : d < 24 * Hour) :
    wrapInt64 (Int.tdiv d 4 * 3) = d / 4 * 3 := by
  have hH : (24 : Int) * Hour = 86400000000000 := by decide
  rw [hH] at h1
  rw [Int.tdiv_eq_ediv h0 (by decide)]
  unfold wrapInt64
  omega

/-- C1: an expired session is always due for renewal. For every server whose
base lookup gives a base (any start time, any end time) and every current time
that is not before the session end time, `ShouldRenewButton` returns true. -/
theorem shouldRenewButton_expired (env : Env) (server : Server) (base : ServerBase)
    (hbase : server.GetBase = .ok base)
    (hexpired : base.EndTime.nsec ≤ env.GetCurrentTime.nsec) :
    ShouldRenewButton env server = true := by
  rw [shouldRenewButton_eq env server base hbase, if_pos hexpired]

/-- Witness of C1: a session from 0 to 10 minutes, looked at after 15 minutes. -/
theorem shouldRenewButton_expired_witness :
    (sessionServer ⟨0⟩ ⟨600000000000⟩).GetBase =
        .ok { InstituteAccessServer.zero.Base with StartTime := ⟨0⟩, EndTime := ⟨600000000000⟩ } ∧
      (600000000000 : Int) ≤ (offlineEnv ⟨900000000000⟩).GetCurrentTime.nsec ∧
      ShouldRenewButton (offlineEnv ⟨900000000000⟩) (sessionServer ⟨0⟩ ⟨600000000000⟩) = true :=
  ⟨rfl, by decide,
    shouldRenewButton_expired (offlineEnv ⟨900000000000⟩) (sessionServer ⟨0⟩ ⟨600000000000⟩)
      { InstituteAccessServer.zero.Base with StartTime := ⟨0⟩, EndTime := ⟨600000000000⟩ }
      rfl (by decide)⟩

/-- Counterexample to C2 as stated: a session of 10 minutes (start 0, end
600 s) looked at 15 minutes after its start is less than 30 minutes old, and
`ShouldRenewButton` returns true, because the session has expired. -/
theorem shouldRenewButton_young_counterexample :
    (offlineEnv ⟨900000000000⟩).GetCurrentTime.nsec ≤ (0 : Int) + 30 * Minute ∧
      ShouldRenewButton (offlineEnv ⟨900000000000⟩) (sessionServer ⟨0⟩ ⟨600000000000⟩) = true := by
  decide

/-- C2 (amended): for every server and every current time that is before the
session end time and at most 30 minutes after the session start time,
`ShouldRenewButton` returns false. -/
theorem shouldRenewButton_young (env : Env) (server : Server) (base : ServerBase)
    (hbase : server.GetBase = .ok base)
    (hlive : env.GetCurrentTime.nsec < base.EndTime.nsec)
    (hyoung : env.GetCurrentTime.nsec ≤ base.StartTime.nsec + 30 * Minute) :
    ShouldRenewButton env server = false := by
  rw [shouldRenewButton_eq env server base hbase, if_neg (not_le.mpr hlive), if_pos hyoung]

/-- Witness of C2 (amended): a session from 0 to 2 hours, looked at after 15
minutes. -/
theorem shouldRenewButton_young_witness :
    (sessionServer ⟨0⟩ ⟨7200000000000⟩).GetBase =
        .ok { InstituteAccessServer.zero.Base with StartTime := ⟨0⟩, EndTime := ⟨7200000000000⟩ } ∧
      (offlineEnv ⟨900000000000⟩).GetCurrentTime.nsec < (7200000000000 : Int) ∧
      (offlineEnv ⟨900000000000⟩).GetCurrentTime.nsec ≤ (0 : Int) + 30 * Minute ∧
      ShouldRenewButton (offlineEnv ⟨900000000000⟩) (sessionServer ⟨0⟩ ⟨7200000000000⟩) = false :=
  ⟨rfl, by decide, by decide,
    shouldRenewButton_young (offlineEnv ⟨900000000000⟩) (sessionServer ⟨0⟩ ⟨7200000000000⟩)
      { InstituteAccessServer.zero.Base with StartTime := ⟨0⟩, EndTime := ⟨7200000000000⟩ }
      rfl (by decide) (by decide)⟩

/-- Counterexample to C3 as stated: a session from 0 to 2 hours and 2
nanoseconds, looked at 1.5 hours and 1 nanosecond after its start. The
duration is below 24 hours, the current time is before the end,
`ShouldRenewButton` returns true (the threshold is
`(7200000000002 / 4) * 3 = 5400000000000`), and
`4 * 5400000000001 < 3 * 7200000000002`. -/
theorem shouldRenewButton_threeQuarters_counterexample :
    (7200000000002 : Int) - 0 < 24 * Hour ∧
      (offlineEnv ⟨5400000000001⟩).GetCurrentTime.nsec < (7200000000002 : Int) ∧
      ShouldRenewButton (offlineEnv ⟨5400000000001⟩) (sessionServer ⟨0⟩ ⟨7200000000002⟩) = true ∧
      ¬ (4 * ((offlineEnv ⟨5400000000001⟩).GetCurrentTime.nsec - 0) ≥
          3 * ((7200000000002 : Int) - 0)) := by
  decide

/-- C3 (amended): for every session whose duration (end minus start) is
shorter than 24 hours and every current time before the session end, if
`ShouldRenewButton` returns true then the elapsed time is past the threshold of
the code, `current - start > ((end - start) / 4) * 3` with the division
rounded down, and so `4 * (current - start) + 5 >= 3 * (end - start)`:
75% of the duration has elapsed up to the rounding, less than 2 nanoseconds. -/
theorem shouldRenewButton_threeQuarters (env : Env) (server : Server) (base : ServerBase)
    (hbase : server.GetBase = .ok base)
    (hshort : base.EndTime.nsec - base.StartTime.nsec < 24 * Hour)
    (hlive : env.GetCurrentTime.nsec < base.EndTime.nsec)
    (hrenew : ShouldRenewButton env server = true) :
    (base.EndTime.nsec - base.StartTime.nsec) / 4 * 3 <
        env.GetCurrentTime.nsec - base.StartTime.nsec ∧
      4 * (env.GetCurrentTime.nsec - base.StartTime.nsec) + 5 ≥
        3 * (base.EndTime.nsec - base.StartTime.nsec) := by
  have hH : (24 : Int) * Hour = 86400000000000 := by decide
  have hM : (30 : Int) * Minute = 1800000000000 := by decide
  have hmax : (maxDuration : Int) = 9223372036854775807 := by decide
  rw [shouldRenewButton_eq env server base hbase, if_neg (not_le.mpr hlive)] at hrenew
  by_cases h2 : env.GetCurrentTime.nsec ≤ base.StartTime.nsec + 30 * Minute
  · rw [if_pos h2] at hrenew
    exact absurd hrenew (by decide)
  · rw [if_neg h2] at hrenew
    have hd0 : 0 ≤ base.EndTime.nsec - base.StartTime.nsec := by omega
    have hsub : base.EndTime.Sub base.StartTime = base.EndTime.nsec - base.StartTime.nsec :=
      sub_exact _ _ hd0 (by omega)
    rw [hsub, threshold_exact _ hd0 hshort] at hrenew
    by_cases h3 : env.GetCurrentTime.nsec + 24 * Hour ≤ base.EndTime.nsec
    · rw [if_pos h3] at hrenew
      exact absurd hrenew (by decide)
    · rw [if_neg h3] at hrenew
      by_cases h4 : env.GetCurrentTime.nsec ≤ base.StartTime.nsec +
          (base.EndTime.nsec - base.StartTime.nsec) / 4 * 3
      · rw [if_pos ⟨hshort, h4⟩] at hrenew
        exact absurd hrenew (by decide)
      · omega

/-- Witness of C3 (amended): a session from 0 to 2 hours, looked at after 1
hour and 45 minutes. -/
theorem shouldRenewButton_threeQuarters_witness :
    ((7200000000000 : Int) - 0 < 24 * Hour ∧
      (offlineEnv ⟨6300000000000⟩).GetCurrentTime.nsec < (7200000000000 : Int) ∧
      ShouldRenewButton (offlineEnv ⟨6300000000000⟩) (sessionServer ⟨0⟩ ⟨7200000000000⟩) = true) ∧
      ((7200000000000 : Int) / 4 * 3 < (offlineEnv ⟨6300000000000⟩).GetCurrentTime.nsec - 0 ∧
      4 * ((offlineEnv ⟨6300000000000⟩).GetCurrentTime.nsec - 0) + 5 ≥
        3 * ((7200000000000 : Int) - 0)) :=
  ⟨by decide,
    shouldRenewButton_threeQuarters (offlineEnv ⟨6300000000000⟩)
      (sessionServer ⟨0⟩ ⟨7200000000000⟩)
      { InstituteAccessServer.zero.Base with StartTime := ⟨0⟩, EndTime := ⟨7200000000000⟩ }
      rfl (by decide) (by decide) (by decide)⟩

/-! ## Theorems: the current server -/

/-- Counterexample to C4 as stated: in the registry of a client that has added
no server yet the tag is the custom tag and the custom collection holds no
server at all (its map is nil); `GetCurrentServer` returns no server and an
error whose cause is `ServerGetCurrentNoMapError`, not
`ServerGetCurrentNotFoundError`. -/
theorem getCurrentServer_noMap_counterexample :
    Servers.zero.IsType = CustomServerType ∧
      (∀ u, Servers.zero.CustomServers.lookup u = none) ∧
      Servers.zero.GetCurrentServer.2.map Error.cause = some .ServerGetCurrentNoMapError ∧
      Servers.zero.GetCurrentServer.2.map Error.cause ≠ some .ServerGetCurrentNotFoundError :=
  ⟨rfl, fun _ => rfl, rfl, by decide⟩

/-- C4 (amended): for every registry state, `GetCurrentServer` returns no
server and an error whose cause is `ServerGetCurrentNotFoundError` whenever the
current tag is secure-internet and no secure-internet location is set, or the
current tag is custom / institute-access and the map of the selected collection
is initialised (not nil, possibly empty) and has no server under its current
URL; when that map is nil, the cause is `ServerGetCurrentNoMapError`. -/
theorem getCurrentServer_notFound (servers : Servers) :
    ((servers.IsType = SecureInternetServerType ∧
          servers.SecureInternetHomeServer.CurrentLocation = "") ∨
        (servers.IsType ≠ SecureInternetServerType ∧
          ∃ m, servers.selected.Map = some m ∧
            (m servers.selected.CurrentURL = none ∨
              m servers.selected.CurrentURL = some none)) →
      servers.GetCurrentServer.1 = none ∧
        servers.GetCurrentServer.2.map Error.cause = some .ServerGetCurrentNotFoundError) ∧
    (servers.IsType ≠ SecureInternetServerType ∧ servers.selected.Map = none →
      servers.GetCurrentServer.1 = none ∧
        servers.GetCurrentServer.2.map Error.cause = some .ServerGetCurrentNoMapError) := by
  constructor
  · rintro (⟨hsec, hloc⟩ | ⟨hns, m, hm, hentry⟩)
    · simp [Servers.GetCurrentServer, Servers.HasSecureLocation, hsec, hloc, Error.cause]
    · unfold Servers.selected at hm hentry
      unfold Servers.GetCurrentServer
      simp only [if_neg hns, hm]
      rcases hentry with h | h <;> simp [h, Error.cause]
  · rintro ⟨hns, hm⟩
    unfold Servers.selected at hm
    unfold Servers.GetCurrentServer
    simp [if_neg hns, hm, Error.cause]

/-- Witness of C4 (amended): a registry with the institute-access tag whose
institute map is empty (not nil). -/
theorem getCurrentServer_notFound_witness :
    ({ Servers.zero with
        InstituteServers := { Map := some (fun _ => none), CurrentURL := "https://a/" },
        IsType := InstituteAccessServerType } : Servers).GetCurrentServer.2.map Error.cause =
      some .ServerGetCurrentNotFoundError :=
  ((getCurrentServer_notFound
    { Servers.zero with
      InstituteServers := { Map := some (fun _ => none), CurrentURL := "https://a/" },
      IsType := InstituteAccessServerType }).1
    (Or.inr ⟨by decide, fun _ => none, rfl, Or.inl rfl⟩)).2

/-- C5: whenever `GetCurrentServer` succeeds (nil error), the returned server
is not nil; with the secure-internet tag it is the secure-internet home server,
and with any other tag it is exactly the server stored under `CurrentURL` in
the collection selected by the tag (custom for the custom tag, institute
access otherwise). No other entry and no other collection is looked at: every
registry with the same tag, the same current URL and the same entry under it
gives the same server. The result is a function of the registry state, which
the call does not change. -/
theorem getCurrentServer_ok (servers : Servers) (returned : Option Server)
    (hok : servers.GetCurrentServer = (returned, none)) :
    (servers.IsType = SecureInternetServerType →
      returned = some (.secure servers.SecureInternetHomeServer)) ∧
    (servers.IsType ≠ SecureInternetServerType →
      ∃ server, returned = some (.institute server) ∧
        servers.selected.lookup servers.selected.CurrentURL = some (some server) ∧
        ∀ other : Servers, other.IsType = servers.IsType →
          other.selected.CurrentURL = servers.selected.CurrentURL →
          other.selected.lookup other.selected.CurrentURL = some (some server) →
          other.GetCurrentServer = (some (.institute server), none)) := by
  constructor
  · intro hsec
    unfold Servers.GetCurrentServer at hok
    simp only [if_pos hsec] at hok
    by_cases hloc : servers.HasSecureLocation = true
    · simp [hloc] at hok
      exact hok.symm
    · simp [hloc] at hok
  · intro hns
    have key : ∀ (x : Servers) (srv : InstituteAccessServer),
        x.IsType ≠ SecureInternetServerType →
        x.selected.lookup x.selected.CurrentURL = some (some srv) →
        x.GetCurrentServer = (some (.institute srv), none) := by
      intro x srv hx hl
      unfold Servers.selected InstituteAccessServers.lookup at hl
      unfold Servers.GetCurrentServer
      simp only [if_neg hx]
      split at hl
      · exact absurd hl (by simp)
      · next m hm => simp only [hm, hl]
    unfold Servers.GetCurrentServer at hok
    simp only [if_neg hns] at hok
    cases hm : (if servers.IsType = CustomServerType then servers.CustomServers
        else servers.InstituteServers).Map with
    | none => simp [hm] at hok
    | some m =>
      simp only [hm] at hok
      cases he : m (if servers.IsType = CustomServerType then servers.CustomServers
          else servers.InstituteServers).CurrentURL with
      | none => simp [he] at hok
      | some entry =>
        cases entry with
        | none => simp [he] at hok
        | some server =>
          simp only [he, Prod.mk.injEq, and_true] at hok
          have hl : servers.selected.lookup servers.selected.CurrentURL = some (some server) := by
            unfold Servers.selected InstituteAccessServers.lookup
            simp only [hm, he]
          refine ⟨server, hok.symm, hl, ?_⟩
          intro other htag _ hother
          exact key other server (htag ▸ hns) hother

/-- Witness of C5: a registry with the custom tag and one custom server, stored
under the current URL. -/
theorem getCurrentServer_ok_witness :
    ({ Servers.zero with
        CustomServers :=
          { Map := some (fun u => if u = "https://a/" then some (some InstituteAccessServer.zero)
              else none),
            CurrentURL := "https://a/" } } : Servers).GetCurrentServer =
        (some (.institute InstituteAccessServer.zero), none) ∧
      ∃ server, some (Server.institute InstituteAccessServer.zero) = some (.institute server) ∧
        server = InstituteAccessServer.zero :=
  ⟨rfl,
    ((getCurrentServer_ok
      { Servers.zero with
        CustomServers :=
          { Map := some (fun u => if u = "https://a/" then some (some InstituteAccessServer.zero)
              else none),
            CurrentURL := "https://a/" } }
      (some (.institute InstituteAccessServer.zero)) rfl).2 (by decide)).elim
      fun server h => ⟨server, h.1, by
        have h2 := h.2.1
        simp [Servers.selected, Servers.zero, CustomServerType,
          InstituteAccessServers.lookup] at h2
        exact h2.symm⟩⟩

/-! ## Theorems: adding a server -/

/-- The server that `init` leaves when the endpoints are fetched: the four
base fields of the discovery entry, the endpoints and the two OAuth URLs are
written, nothing else. -/
theorem init_ok (env : Env) (institute : InstituteAccessServer) (url : String)
    (displayName : List (String × String)) (serverType : String) (supportContact : List String)
    (endpoints : ServerEndpoints) (hapi : env.APIGetEndpoints url = .ok endpoints) :
    institute.init env url displayName serverType supportContact =
      ({ OAuth := institute.OAuth.Init endpoints.API.V3.Authorization endpoints.API.V3.Token,
         Base := { institute.Base with
                   URL := url, DisplayName := displayName, SupportContact := supportContact,
                   Type_ := serverType, Endpoints := endpoints } }, none) := by
  simp [InstituteAccessServer.init, hapi]

/-- The method `init` fails exactly with the error of the endpoint fetch. -/
theorem init_error (env : Env) (institute : InstituteAccessServer) (url : String)
    (displayName : List (String × String)) (serverType : String) (supportContact : List String)
    (err : Error) (hapi : env.APIGetEndpoints url = .error err) :
    (institute.init env url displayName serverType supportContact).2 =
      some (.WrappedErrorMessage ("failed initializing institute server " ++ url) err) := by
  simp [InstituteAccessServer.init, hapi]

/-- Making the map does not change what is stored. -/
theorem ensureMap_lookup (c : InstituteAccessServers) (u : String) :
    c.ensureMap.lookup u = c.lookup u := by
  unfold InstituteAccessServers.ensureMap InstituteAccessServers.lookup
  cases h : c.Map <;> simp [h]

/-- What is stored after `store`. -/
theorem store_lookup (c : InstituteAccessServers) (url u : String)
    (server : InstituteAccessServer) :
    (c.store url server).lookup u = if u = url then some (some server) else c.lookup u := by
  simp [InstituteAccessServers.store, InstituteAccessServers.lookup]

/-- Storing again what is stored changes nothing. -/
theorem store_store (c : InstituteAccessServers) (url : String)
    (server : InstituteAccessServer) :
    ((c.store url server).store url server) = c.store url server := by
  simp only [InstituteAccessServers.store, InstituteAccessServers.lookup]
  congr 2
  funext u
  by_cases h : u = url <;> simp [h]

/-- The collection written to, after a write to it. -/
theorem collection_setToAddServers (servers : Servers) (isCustom : Bool)
    (c : InstituteAccessServers) (t : ServerType) :
    ({ servers.setToAddServers isCustom c with IsType := t } : Servers).collection isCustom = c := by
  cases isCustom <;> simp [Servers.setToAddServers, Servers.collection]

/-- The other collection, after a write to one. -/
theorem collection_not_setToAddServers (servers : Servers) (isCustom : Bool)
    (c : InstituteAccessServers) (t : ServerType) :
    ({ servers.setToAddServers isCustom c with IsType := t } : Servers).collection (!isCustom) =
      servers.collection (!isCustom) := by
  cases isCustom <;> simp [Servers.setToAddServers, Servers.collection]

/-- A successful `addInstituteAndCustom`, spelled out: the endpoints were
fetched, the server written is the stored one (or a fresh one when nothing was
stored) after `init`, it is stored under the URL and returned, and the tag is
set. -/
theorem addInstituteAndCustom_ok (env : Env) (servers : Servers) (discoServer : DiscoveryServer)
    (isCustom : Bool) (after : Servers) (returned : Option Server)
    (hok : servers.addInstituteAndCustom env discoServer isCustom = some (after, returned, none)) :
    ∃ endpoints previous,
      env.APIGetEndpoints discoServer.BaseURL = .ok endpoints ∧
      ((servers.collection isCustom).lookup discoServer.BaseURL = some (some previous) ∨
        ((servers.collection isCustom).lookup discoServer.BaseURL = none ∧
          previous = InstituteAccessServer.zero)) ∧
      returned = some (.institute
        (previous.init env discoServer.BaseURL discoServer.DisplayName discoServer.Type_
          discoServer.SupportContact).1) ∧
      after = { servers.setToAddServers isCustom
                  ((servers.collection isCustom).ensureMap.store discoServer.BaseURL
                    (previous.init env discoServer.BaseURL discoServer.DisplayName
                      discoServer.Type_ discoServer.SupportContact).1) with
                IsType := if isCustom then CustomServerType else InstituteAccessServerType } := by
  unfold Servers.addInstituteAndCustom at hok
  simp only [ensureMap_lookup] at hok
  have hcoll : (if isCustom = true then servers.CustomServers else servers.InstituteServers) =
      servers.collection isCustom := rfl
  rw [hcoll] at hok
  cases hapi : env.APIGetEndpoints discoServer.BaseURL with
  | error err =>
    exfalso
    cases hl : (servers.collection isCustom).lookup discoServer.BaseURL with
    | none =>
      have h2 := init_error env InstituteAccessServer.zero discoServer.BaseURL
        discoServer.DisplayName discoServer.Type_ discoServer.SupportContact err hapi
      rw [hl] at hok
      simp only at hok
      split at hok
      · simp at hok
      · next _ _ heq => rw [heq] at h2; simp at h2
    | some entry =>
      cases entry with
      | none => rw [hl] at hok; simp at hok
      | some server =>
        have h2 := init_error env server discoServer.BaseURL
          discoServer.DisplayName discoServer.Type_ discoServer.SupportContact err hapi
        rw [hl] at hok
        simp only at hok
        split at hok
        · simp at hok
        · next _ _ heq => rw [heq] at h2; simp at h2
  | ok endpoints =>
    cases hl : (servers.collection isCustom).lookup discoServer.BaseURL with
    | none =>
      refine ⟨endpoints, InstituteAccessServer.zero, rfl, Or.inr ⟨rfl, rfl⟩, ?_⟩
      rw [hl] at hok
      simp only [init_ok env InstituteAccessServer.zero discoServer.BaseURL
        discoServer.DisplayName discoServer.Type_ discoServer.SupportContact endpoints hapi,
        Option.some.injEq, Prod.mk.injEq, and_true] at hok ⊢
      exact ⟨hok.2.symm, hok.1.symm⟩
    | some entry =>
      cases entry with
      | none => rw [hl] at hok; simp at hok
      | some server =>
        refine ⟨endpoints, server, rfl, Or.inl rfl, ?_⟩
        rw [hl] at hok
        simp only [init_ok env server discoServer.BaseURL
          discoServer.DisplayName discoServer.Type_ discoServer.SupportContact endpoints hapi,
          Option.some.injEq, Prod.mk.injEq, and_true] at hok ⊢
        exact ⟨hok.2.symm, hok.1.symm⟩

/-- The call on a registry that holds a server under the URL, when the
endpoints are fetched. -/
theorem addInstituteAndCustom_existing (env : Env) (servers : Servers)
    (discoServer : DiscoveryServer) (isCustom : Bool) (previous : InstituteAccessServer)
    (endpoints : ServerEndpoints)
    (hheld : (servers.collection isCustom).lookup discoServer.BaseURL = some (some previous))
    (hapi : env.APIGetEndpoints discoServer.BaseURL = .ok endpoints) :
    servers.addInstituteAndCustom env discoServer isCustom =
      some ({ servers.setToAddServers isCustom
                ((servers.collection isCustom).ensureMap.store discoServer.BaseURL
                  (previous.init env discoServer.BaseURL discoServer.DisplayName
                    discoServer.Type_ discoServer.SupportContact).1) with
              IsType := if isCustom then CustomServerType else InstituteAccessServerType },
        some (.institute
          (previous.init env discoServer.BaseURL discoServer.DisplayName discoServer.Type_
            discoServer.SupportContact).1), none) := by
  unfold Servers.addInstituteAndCustom
  simp only [ensureMap_lookup]
  have hcoll : (if isCustom = true then servers.CustomServers else servers.InstituteServers) =
      servers.collection isCustom := rfl
  rw [hcoll, hheld]
  simp only [init_ok env previous discoServer.BaseURL discoServer.DisplayName
    discoServer.Type_ discoServer.SupportContact endpoints hapi]

/-- Running `init` again with the same discovery entry and the same endpoints
changes nothing. -/
theorem init_init (env : Env) (institute : InstituteAccessServer) (url : String)
    (displayName : List (String × String)) (serverType : String) (supportContact : List String)
    (endpoints : ServerEndpoints) (hapi : env.APIGetEndpoints url = .ok endpoints) :
    ((institute.init env url displayName serverType supportContact).1.init env url displayName
      serverType supportContact).1 =
      (institute.init env url displayName serverType supportContact).1 := by
  simp [init_ok env _ url displayName serverType supportContact endpoints hapi, OAuth.Init]

/-- Writing back the collection and the tag a registry has changes nothing. -/
theorem setToAddServers_self (servers : Servers) (isCustom : Bool) :
    ({ servers.setToAddServers isCustom (servers.collection isCustom) with
       IsType := servers.IsType } : Servers) = servers := by
  cases isCustom <;> simp [Servers.setToAddServers, Servers.collection]

/-- C6: for every registry whose target collection already holds a server
under the base URL of the discovery entry, a successful `AddCustomServer`
(`isCustom` true) or `AddInstituteAccessServer` (`isCustom` false) keeps that
server under that URL, refreshed in place: its URL, display name, support
contacts, type and endpoints take the new values, its token store (access
token, refresh token, expiry) and its profiles and session times are what they
were before the call; and adding the same entry a second time (the server
answering with the same endpoints) returns the same server and leaves the
registry as the first call left it. -/
theorem add_existing_refreshes (env : Env) (servers : Servers) (discoServer : DiscoveryServer)
    (isCustom : Bool) (previous : InstituteAccessServer) (after : Servers)
    (returned : Option Server)
    (hheld : (servers.collection isCustom).lookup discoServer.BaseURL = some (some previous))
    (hok : (if isCustom then servers.AddCustomServer env discoServer
      else servers.AddInstituteAccessServer env discoServer) = some (after, returned, none)) :
    ∃ endpoints kept,
      env.APIGetEndpoints discoServer.BaseURL = .ok endpoints ∧
      returned = some (.institute kept) ∧
      (after.collection isCustom).lookup discoServer.BaseURL = some (some kept) ∧
      kept.Base.URL = discoServer.BaseURL ∧
      kept.Base.DisplayName = discoServer.DisplayName ∧
      kept.Base.SupportContact = discoServer.SupportContact ∧
      kept.Base.Type_ = discoServer.Type_ ∧
      kept.Base.Endpoints = endpoints ∧
      kept.OAuth.Token = previous.OAuth.Token ∧
      kept.Base.Profiles = previous.Base.Profiles ∧
      kept.Base.ProfilesRaw = previous.Base.ProfilesRaw ∧
      kept.Base.StartTime = previous.Base.StartTime ∧
      kept.Base.EndTime = previous.Base.EndTime ∧
      (if isCustom then after.AddCustomServer env discoServer
        else after.AddInstituteAccessServer env discoServer) = some (after, returned, none) := by
  have hok2 : servers.addInstituteAndCustom env discoServer isCustom =
      some (after, returned, none) := by
    cases isCustom
    · simpa [Servers.AddInstituteAccessServer] using hok
    · simpa [Servers.AddCustomServer] using hok
  obtain ⟨endpoints, prev, hapi, hprev, hret, hafter⟩ :=
    addInstituteAndCustom_ok env servers discoServer isCustom after returned hok2
  have hp : prev = previous := by
    rcases hprev with h | ⟨h, _⟩
    · rw [hheld] at h
      injection h with h
      injection h with h
      exact h.symm
    · rw [hheld] at h
      exact absurd h (by simp)
  subst hp
  have hinit := init_ok env prev discoServer.BaseURL discoServer.DisplayName
    discoServer.Type_ discoServer.SupportContact endpoints hapi
  have hstored : (after.collection isCustom).lookup discoServer.BaseURL =
      some (some (prev.init env discoServer.BaseURL discoServer.DisplayName discoServer.Type_
        discoServer.SupportContact).1) := by
    rw [hafter, collection_setToAddServers, store_lookup, if_pos rfl]
  refine ⟨endpoints, _, hapi, hret, hstored, ?_, ?_, ?_, ?_, ?_, ?_, ?_, ?_, ?_, ?_, ?_⟩
  any_goals (rw [hinit])
  any_goals rfl
  have hagain := addInstituteAndCustom_existing env after discoServer isCustom _ endpoints
    hstored hapi
  rw [init_init env prev discoServer.BaseURL discoServer.DisplayName discoServer.Type_
    discoServer.SupportContact endpoints hapi] at hagain
  have hstate : ({ after.setToAddServers isCustom
        ((after.collection isCustom).ensureMap.store discoServer.BaseURL
          (prev.init env discoServer.BaseURL discoServer.DisplayName
            discoServer.Type_ discoServer.SupportContact).1) with
        IsType := if isCustom then CustomServerType else InstituteAccessServerType } : Servers) =
      after := by
    have hc : (after.collection isCustom).ensureMap.store discoServer.BaseURL
        (prev.init env discoServer.BaseURL discoServer.DisplayName
          discoServer.Type_ discoServer.SupportContact).1 = after.collection isCustom := by
      rw [hafter, collection_setToAddServers]
      have he : ((servers.collection isCustom).ensureMap.store discoServer.BaseURL
          (prev.init env discoServer.BaseURL discoServer.DisplayName
            discoServer.Type_ discoServer.SupportContact).1).ensureMap =
          (servers.collection isCustom).ensureMap.store discoServer.BaseURL
          (prev.init env discoServer.BaseURL discoServer.DisplayName
            discoServer.Type_ discoServer.SupportContact).1 := rfl
      rw [he, store_store]
    have ht : (if isCustom then CustomServerType else InstituteAccessServerType) =
        after.IsType := by
      rw [hafter]
    rw [hc, ht]
    exact setToAddServers_self after isCustom
  rw [hstate, ← hret] at hagain
  cases isCustom
  · simpa [Servers.AddInstituteAccessServer] using hagain
  · simpa [Servers.AddCustomServer] using hagain

/-- Witness of C6: `sampleDisco` added as a custom server to a registry that
holds a server with tokens under its URL. -/
theorem add_existing_refreshes_witness :
    (sampleRegistry.collection true).lookup sampleDisco.BaseURL = some (some sampleHeld) ∧
      sampleRegistry.AddCustomServer (onlineEnv ⟨0⟩) sampleDisco =
        some (sampleAdded.1, sampleAdded.2.1, none) ∧
      ∃ kept, sampleAdded.2.1 = some (.institute kept) ∧
        kept.Base.DisplayName = [("en", "A")] ∧
        kept.OAuth.Token = { Access := "access", Refresh := "refresh", ExpiredTimestamp := ⟨5⟩ } ∧
        sampleAdded.1.AddCustomServer (onlineEnv ⟨0⟩) sampleDisco =
          some (sampleAdded.1, sampleAdded.2.1, none) := by
  refine ⟨rfl, rfl, ?_⟩
  obtain ⟨_, kept, _, h1, _, _, h2, _, _, _, h3, _, _, _, _, h4⟩ :=
    add_existing_refreshes (onlineEnv ⟨0⟩) sampleRegistry sampleDisco true sampleHeld
      sampleAdded.1 sampleAdded.2.1 rfl rfl
  exact ⟨kept, h1, h2, h3, h4⟩

/-- C7: custom and institute-access servers live in separate namespaces. A
successful `AddCustomServer` (`isCustom` true) sets the tag to custom, stores
the returned server under the URL of the entry in the custom collection, and
leaves every other entry of that collection, its current URL, the whole
institute-access collection and the secure-internet home server as they were;
`AddInstituteAccessServer` (`isCustom` false) does the same with the two
collections exchanged. In particular what the other collection resolves, for
every URL, is what it resolved before. -/
theorem add_separate_namespaces (env : Env) (servers : Servers) (discoServer : DiscoveryServer)
    (isCustom : Bool) (after : Servers) (returned : Option Server)
    (hok : (if isCustom then servers.AddCustomServer env discoServer
      else servers.AddInstituteAccessServer env discoServer) = some (after, returned, none)) :
    after.IsType = (if isCustom then CustomServerType else InstituteAccessServerType) ∧
      after.collection (!isCustom) = servers.collection (!isCustom) ∧
      after.SecureInternetHomeServer = servers.SecureInternetHomeServer ∧
      (after.collection isCustom).CurrentURL = (servers.collection isCustom).CurrentURL ∧
      (∀ u, u ≠ discoServer.BaseURL →
        (after.collection isCustom).lookup u = (servers.collection isCustom).lookup u) ∧
      (∃ server, returned = some (.institute server) ∧
        (after.collection isCustom).lookup discoServer.BaseURL = some (some server)) ∧
      (∀ u, (after.collection (!isCustom)).lookup u =
        (servers.collection (!isCustom)).lookup u) := by
  have hok2 : servers.addInstituteAndCustom env discoServer isCustom =
      some (after, returned, none) := by
    cases isCustom
    · simpa [Servers.AddInstituteAccessServer] using hok
    · simpa [Servers.AddCustomServer] using hok
  obtain ⟨endpoints, prev, _, _, hret, hafter⟩ :=
    addInstituteAndCustom_ok env servers discoServer isCustom after returned hok2
  have hother : after.collection (!isCustom) = servers.collection (!isCustom) := by
    rw [hafter, collection_not_setToAddServers]
  have hsame : after.collection isCustom =
      (servers.collection isCustom).ensureMap.store discoServer.BaseURL
        (prev.init env discoServer.BaseURL discoServer.DisplayName discoServer.Type_
          discoServer.SupportContact).1 := by
    rw [hafter, collection_setToAddServers]
  refine ⟨by rw [hafter], hother, ?_, ?_, ?_, ⟨_, hret, ?_⟩, fun u => by rw [hother]⟩
  · rw [hafter]
    cases isCustom <;> rfl
  · rw [hsame]
    unfold InstituteAccessServers.store InstituteAccessServers.ensureMap
    cases (servers.collection isCustom).Map <;> rfl
  · intro u hu
    rw [hsame, store_lookup, if_neg hu, ensureMap_lookup]
  · rw [hsame, store_lookup, if_pos rfl]

/-- Witness of C7: `sampleDisco` added as an institute access server to a
registry that holds the URL as a custom server only. -/
theorem add_separate_namespaces_witness :
    sampleRegistry.AddInstituteAccessServer (onlineEnv ⟨0⟩) sampleDisco =
        some (sampleAddedInstitute.1, sampleAddedInstitute.2.1, none) ∧
      sampleAddedInstitute.1.IsType = InstituteAccessServerType ∧
      sampleAddedInstitute.1.CustomServers = sampleRegistry.CustomServers :=
  ⟨rfl,
    (add_separate_namespaces (onlineEnv ⟨0⟩) sampleRegistry sampleDisco false
      sampleAddedInstitute.1 sampleAddedInstitute.2.1 rfl).1,
    (add_separate_namespaces (onlineEnv ⟨0⟩) sampleRegistry sampleDisco false
      sampleAddedInstitute.1 sampleAddedInstitute.2.1 rfl).2.1⟩

/-! ## Theorems: profile validation -/

/-- After a write through the base pointer, the base lookup gives what was
written. -/
theorem getBase_setBase (server : Server) (base : ServerBase) :
    (server.setBase base).GetBase = .ok base := by
  cases server <;> simp [Server.setBase, Server.GetBase]

/-- The profile lookup fails exactly when no profile of the list has the
selected id. -/
theorem getCurrentProfile_of_absent (server : Server) (base : ServerBase)
    (hbase : server.GetBase = .ok base)
    (habsent : ∀ p ∈ base.Profiles.Info.ProfileList, p.ID ≠ base.Profiles.Current) :
    getCurrentProfile server = .error (.WrappedErrorMessage "failed getting current profile"
      (.ServerGetCurrentProfileNotFoundError base.Profiles.Current)) := by
  have hfind : base.Profiles.Info.ProfileList.find?
      (fun profile => profile.ID == base.Profiles.Current) = none := by
    rw [List.find?_eq_none]
    intro p hp
    simpa using habsent p hp
  simp [getCurrentProfile, hbase, hfind]

/-- The profile lookup succeeds when some profile of the list has the selected
id; the profile found has that id and is in the list. -/
theorem getCurrentProfile_of_present (server : Server) (base : ServerBase)
    (hbase : server.GetBase = .ok base)
    (hpresent : ∃ p ∈ base.Profiles.Info.ProfileList, p.ID = base.Profiles.Current) :
    ∃ profile, getCurrentProfile server = .ok profile ∧
      profile ∈ base.Profiles.Info.ProfileList ∧ profile.ID = base.Profiles.Current := by
  cases hfind : base.Profiles.Info.ProfileList.find?
      (fun profile => profile.ID == base.Profiles.Current) with
  | none =>
    rw [List.find?_eq_none] at hfind
    obtain ⟨p, hp, hid⟩ := hpresent
    exact absurd (by simpa using hid) (hfind p hp)
  | some profile =>
    refine ⟨profile, by simp [getCurrentProfile, hbase, hfind], List.mem_of_find?_eq_some hfind, ?_⟩
    simpa using List.find?_some hfind

/-- The call `HasValidProfile` when the fetch and the base lookup succeed and the
selected id is not empty and in no profile of the list. -/
theorem hasValidProfile_of_absent (env : Env) (server fetched : Server) (base : ServerBase)
    (hinfo : env.APIInfo server = (fetched, none)) (hbase : fetched.GetBase = .ok base)
    (hsel : base.Profiles.Current ≠ "")
    (habsent : ∀ p ∈ base.Profiles.Info.ProfileList, p.ID ≠ base.Profiles.Current) :
    HasValidProfile env server =
      match base.Profiles.Info.ProfileList with
      | [only] => some (fetched.setBase
          { base with Profiles := { base.Profiles with Current := only.ID } }, true, none)
      | _ => some (fetched.setBase
          { base with Profiles := { base.Profiles with Current := "" } }, false, none) := by
  unfold HasValidProfile
  simp only [hinfo, hbase, getCurrentProfile_of_absent fetched base hbase habsent]
  simp only [bne_iff_ne, ne_eq, hsel, not_false_eq_true, ite_true]
  match hlist : base.Profiles.Info.ProfileList with
  | [] => simp
  | [only] => simp
  | _ :: _ :: _ => simp

/-- The call `HasValidProfile` when the fetch and the base lookup succeed and the
selected id is not empty and is the id of a profile of the list. -/
theorem hasValidProfile_of_present (env : Env) (server fetched : Server) (base : ServerBase)
    (hinfo : env.APIInfo server = (fetched, none)) (hbase : fetched.GetBase = .ok base)
    (hsel : base.Profiles.Current ≠ "")
    (hpresent : ∃ p ∈ base.Profiles.Info.ProfileList, p.ID = base.Profiles.Current) :
    HasValidProfile env server = some (fetched.setBase base, true, none) := by
  obtain ⟨profile, hprofile, _, _⟩ := getCurrentProfile_of_present fetched base hbase hpresent
  unfold HasValidProfile
  simp only [hinfo, hbase, hprofile]
  simp [hsel]

/-- The call `HasValidProfile` when the fetch and the base lookup succeed and
nothing is selected. -/
theorem hasValidProfile_of_unselected (env : Env) (server fetched : Server) (base : ServerBase)
    (hinfo : env.APIInfo server = (fetched, none)) (hbase : fetched.GetBase = .ok base)
    (hsel : base.Profiles.Current = "") :
    HasValidProfile env server =
      match base.Profiles.Info.ProfileList with
      | [only] => some (fetched.setBase
          { base with Profiles := { base.Profiles with Current := only.ID } }, true, none)
      | _ => some (fetched.setBase base, false, none) := by
  unfold HasValidProfile
  simp only [hinfo, hbase]
  simp only [hsel, bne_self_eq_false, Bool.false_eq_true, ite_false]
  match hlist : base.Profiles.Info.ProfileList with
  | [] => simp [hsel]
  | [only] => simp [hsel]
  | _ :: _ :: _ => simp [hsel]

/-- C8: let the metadata fetch succeed and let the selected profile id, after
the fetch, be non-empty. If it is the id of no profile of the (re-fetched)
list, `HasValidProfile` resets the selection: when the list has exactly one
profile the call returns true and the selected id is the id of that profile,
otherwise the call returns false and the selected id is empty. If it is the id
of a profile of the list, the call returns true and the base, the selected id
included, is unchanged. (An empty id means that nothing is selected.) Nothing
but the selected id is changed in the base. -/
theorem hasValidProfile_selection (env : Env) (server fetched : Server) (base : ServerBase)
    (hinfo : env.APIInfo server = (fetched, none)) (hbase : fetched.GetBase = .ok base)
    (hsel : base.Profiles.Current ≠ "") :
    ((∀ p ∈ base.Profiles.Info.ProfileList, p.ID ≠ base.Profiles.Current) →
      (∀ only, base.Profiles.Info.ProfileList = [only] →
        ∃ after, HasValidProfile env server = some (after, true, none) ∧
          after.GetBase =
            .ok { base with Profiles := { base.Profiles with Current := only.ID } }) ∧
      (base.Profiles.Info.ProfileList.length ≠ 1 →
        ∃ after, HasValidProfile env server = some (after, false, none) ∧
          after.GetBase = .ok { base with Profiles := { base.Profiles with Current := "" } })) ∧
    ((∃ p ∈ base.Profiles.Info.ProfileList, p.ID = base.Profiles.Current) →
      ∃ after, HasValidProfile env server = some (after, true, none) ∧
        after.GetBase = .ok base) := by
  refine ⟨fun habsent => ⟨?_, ?_⟩, fun hpresent => ?_⟩
  · intro only honly
    refine ⟨_, ?_, getBase_setBase fetched _⟩
    rw [hasValidProfile_of_absent env server fetched base hinfo hbase hsel habsent, honly]
  · intro hlen
    refine ⟨_, ?_, getBase_setBase fetched _⟩
    rw [hasValidProfile_of_absent env server fetched base hinfo hbase hsel habsent]
    match hlist : base.Profiles.Info.ProfileList with
    | [] => rfl
    | [only] => rw [hlist] at hlen; exact absurd rfl hlen
    | _ :: _ :: _ => rfl
  · exact ⟨_, hasValidProfile_of_present env server fetched base hinfo hbase hsel hpresent,
      getBase_setBase fetched _⟩

/-- Witness of C8: the selected id `IDONOTEXIST` with a list of the one profile
`default`. -/
theorem hasValidProfile_selection_witness :
    profileEnv.APIInfo (profileServer "IDONOTEXIST" [sampleProfile "default" ["openvpn"]]) =
        (profileServer "IDONOTEXIST" [sampleProfile "default" ["openvpn"]], none) ∧
      (profileServer "IDONOTEXIST" [sampleProfile "default" ["openvpn"]]).GetBase =
        .ok (profileBase "IDONOTEXIST" [sampleProfile "default" ["openvpn"]]) ∧
      (profileBase "IDONOTEXIST" [sampleProfile "default" ["openvpn"]]).Profiles.Current ≠ "" ∧
      ∃ after,
        HasValidProfile profileEnv
            (profileServer "IDONOTEXIST" [sampleProfile "default" ["openvpn"]]) =
          some (after, true, none) ∧
        after.GetBase = .ok (profileBase "default" [sampleProfile "default" ["openvpn"]]) :=
  ⟨rfl, rfl, by decide,
    ((hasValidProfile_selection profileEnv
      (profileServer "IDONOTEXIST" [sampleProfile "default" ["openvpn"]])
      (profileServer "IDONOTEXIST" [sampleProfile "default" ["openvpn"]])
      (profileBase "IDONOTEXIST" [sampleProfile "default" ["openvpn"]])
      rfl rfl (by decide)).1 (by decide)).1 (sampleProfile "default" ["openvpn"]) rfl⟩

/-- C9: a stale profile never makes profile validation fail. Whatever the
selected profile id is (in the list, not in it, or empty), if the metadata
fetch (`APIInfo`) and the base lookup succeed, `HasValidProfile` returns a nil
error; an error it returns is the wrapped error of the fetch or the wrapped
error of the base lookup, and comes with the result false; and the call always
returns (the access `ProfileList[0]` does not panic). -/
theorem hasValidProfile_errors (env : Env) (server : Server) :
    (∀ fetched base, env.APIInfo server = (fetched, none) → fetched.GetBase = .ok base →
      ∃ after valid, HasValidProfile env server = some (after, valid, none)) ∧
    (∀ after valid err, HasValidProfile env server = some (after, valid, some err) →
      valid = false ∧
      ((∃ fetched infoErr, env.APIInfo server = (fetched, some infoErr) ∧
          err = .WrappedErrorMessage "failed has valid profile check" infoErr) ∨
        (∃ fetched baseErr, env.APIInfo server = (fetched, none) ∧
          fetched.GetBase = .error baseErr ∧
          err = .WrappedErrorMessage "failed has valid profile check" baseErr))) ∧
    HasValidProfile env server ≠ none := by
  have hsucc : ∀ fetched base, env.APIInfo server = (fetched, none) →
      fetched.GetBase = .ok base →
      ∃ after valid, HasValidProfile env server = some (after, valid, none) := by
    intro fetched base hinfo hbase
    by_cases hsel : base.Profiles.Current = ""
    · rw [hasValidProfile_of_unselected env server fetched base hinfo hbase hsel]
      match base.Profiles.Info.ProfileList with
      | [] => exact ⟨_, _, rfl⟩
      | [only] => exact ⟨_, _, rfl⟩
      | _ :: _ :: _ => exact ⟨_, _, rfl⟩
    · by_cases hpresent : ∃ p ∈ base.Profiles.Info.ProfileList, p.ID = base.Profiles.Current
      · exact ⟨_, _, hasValidProfile_of_present env server fetched base hinfo hbase hsel hpresent⟩
      · have habsent : ∀ p ∈ base.Profiles.Info.ProfileList, p.ID ≠ base.Profiles.Current :=
          fun p hp hid => hpresent ⟨p, hp, hid⟩
        rw [hasValidProfile_of_absent env server fetched base hinfo hbase hsel habsent]
        match base.Profiles.Info.ProfileList with
        | [] => exact ⟨_, _, rfl⟩
        | [only] => exact ⟨_, _, rfl⟩
        | _ :: _ :: _ => exact ⟨_, _, rfl⟩
  have hall : ∀ fetched infoErr?, env.APIInfo server = (fetched, infoErr?) →
      (∃ after valid, HasValidProfile env server = some (after, valid, none)) ∨
      (∃ infoErr, infoErr? = some infoErr ∧ HasValidProfile env server =
        some (fetched, false, some (.WrappedErrorMessage "failed has valid profile check"
          infoErr))) ∨
      (∃ baseErr, infoErr? = none ∧ fetched.GetBase = .error baseErr ∧
        HasValidProfile env server =
          some (fetched, false, some (.WrappedErrorMessage "failed has valid profile check"
            baseErr))) := by
    intro fetched infoErr? hinfo
    cases infoErr? with
    | some infoErr =>
      refine Or.inr (Or.inl ⟨infoErr, rfl, ?_⟩)
      unfold HasValidProfile
      simp only [hinfo]
    | none =>
      cases hbase : fetched.GetBase with
      | error baseErr =>
        refine Or.inr (Or.inr ⟨baseErr, rfl, rfl, ?_⟩)
        unfold HasValidProfile
        simp only [hinfo, hbase]
      | ok base => exact Or.inl (hsucc fetched base hinfo hbase)
  refine ⟨hsucc, ?_, ?_⟩
  · intro after valid err hret
    rcases hall (env.APIInfo server).1 (env.APIInfo server).2 rfl with
      ⟨a, v, h⟩ | ⟨infoErr, he, h⟩ | ⟨baseErr, he, hb, h⟩
    · rw [h] at hret
      simp at hret
    · rw [h] at hret
      simp only [Option.some.injEq, Prod.mk.injEq] at hret
      refine ⟨hret.2.1.symm, Or.inl ⟨(env.APIInfo server).1, infoErr, ?_, hret.2.2.symm⟩⟩
      rw [← he]
    · rw [h] at hret
      simp only [Option.some.injEq, Prod.mk.injEq] at hret
      refine ⟨hret.2.1.symm, Or.inr ⟨(env.APIInfo server).1, baseErr, ?_, hb, hret.2.2.symm⟩⟩
      rw [← he]
  · rcases hall (env.APIInfo server).1 (env.APIInfo server).2 rfl with
      ⟨a, v, h⟩ | ⟨infoErr, _, h⟩ | ⟨baseErr, _, _, h⟩ <;> rw [h] <;> simp

/-- Witness of C9: the stale selection `IDONOTEXIST` with two profiles in the
list: the call returns false and a nil error. -/
theorem hasValidProfile_errors_witness :
    ∃ after valid,
      HasValidProfile profileEnv
          (profileServer "IDONOTEXIST"
            [sampleProfile "a" ["openvpn"], sampleProfile "b" ["wireguard"]]) =
        some (after, valid, none) :=
  (hasValidProfile_errors profileEnv
    (profileServer "IDONOTEXIST"
      [sampleProfile "a" ["openvpn"], sampleProfile "b" ["wireguard"]])).1
    (profileServer "IDONOTEXIST"
      [sampleProfile "a" ["openvpn"], sampleProfile "b" ["wireguard"]])
    (profileBase "IDONOTEXIST" [sampleProfile "a" ["openvpn"], sampleProfile "b" ["wireguard"]])
    rfl rfl

/-! ## Theorems: configuration retrieval -/

/-- A profile supports a protocol exactly when its list contains it. -/
theorem supportsProtocol_iff (profile : ServerProfile) (protocol : String) :
    profile.supportsProtocol protocol = true ↔ protocol ∈ profile.VPNProtoList := by
  simp [ServerProfile.supportsProtocol, List.any_eq_true]

/-- The function `GetConfig` on a server whose selected profile lists
"wireguard". -/
theorem getConfig_of_wireguard (env : Env) (server : Server) (preferTCP : Bool)
    (profile : ServerProfile) (hprofile : getCurrentProfile server = .ok profile)
    (hwg : "wireguard" ∈ profile.VPNProtoList) :
    GetConfig env server preferTCP =
      match wireguardGetConfig env server preferTCP profile.supportsOpenVPN with
      | (after, _, _, some configErr) =>
        (after, "", "", some (.WrappedErrorMessage
          "failed getting an OpenVPN/WireGuard configuration" configErr))
      | (after, config, configType, none) => (after, config, configType, none) := by
  have h : profile.supportsWireguard = true := (supportsProtocol_iff profile "wireguard").2 hwg
  simp only [GetConfig, hprofile, h, if_true]

/-- The function `GetConfig` on a server whose selected profile does not list
"wireguard". -/
theorem getConfig_of_no_wireguard (env : Env) (server : Server) (preferTCP : Bool)
    (profile : ServerProfile) (hprofile : getCurrentProfile server = .ok profile)
    (hwg : "wireguard" ∉ profile.VPNProtoList) :
    GetConfig env server preferTCP =
      match openVPNGetConfig env server preferTCP with
      | (after, _, _, some configErr) =>
        (after, "", "", some (.WrappedErrorMessage
          "failed getting an OpenVPN/WireGuard configuration" configErr))
      | (after, config, configType, none) => (after, config, configType, none) := by
  have h : profile.supportsWireguard = false := by
    cases hs : profile.supportsWireguard
    · rfl
    · exact absurd ((supportsProtocol_iff profile "wireguard").1 hs) hwg
  simp only [GetConfig, hprofile, h, Bool.false_eq_true, if_false]

/-- C10: `GetConfig` selects the protocol from the protocol list of the
selected profile. If the list contains "wireguard", the WireGuard connect path
is used: a key is generated, the connect call is made with the selected id,
the public key of that key, `preferTCP` and whether the profile lists
"openvpn"; when both succeed the result is the tag and the body the call
returned, the key being injected into the body exactly when the tag is
"wireguard", and the session times are stored; when the key generation or the
call fails, the result is the empty config and tag with that error wrapped,
and the server is unchanged. If the list does not contain "wireguard", the
OpenVPN path is used: when the OpenVPN connect call succeeds the result is
the tag "openvpn" with the body it returned, unchanged, and the session times
are stored; when it fails the result is the empty config and tag with its
error wrapped; and every successful result carries the tag "openvpn" and the
body returned by the call. -/
theorem getConfig_protocol (env : Env) (server : Server) (preferTCP : Bool)
    (base : ServerBase) (profile : ServerProfile)
    (hbase : server.GetBase = .ok base) (hprofile : getCurrentProfile server = .ok profile) :
    ("wireguard" ∈ profile.VPNProtoList →
      (∀ key keyErr, env.GenerateKey = (key, some keyErr) →
        GetConfig env server preferTCP =
          (server, "", "", some (.WrappedErrorMessage
            "failed getting an OpenVPN/WireGuard configuration"
            (.WrappedErrorMessage "failed getting server WireGuard configuration" keyErr)))) ∧
      (∀ key body tag expires connectErr, env.GenerateKey = (key, none) →
        env.APIConnectWireguard server base.Profiles.Current (env.PublicKeyString key) preferTCP
          profile.supportsOpenVPN = (body, tag, expires, some connectErr) →
        GetConfig env server preferTCP =
          (server, "", "", some (.WrappedErrorMessage
            "failed getting an OpenVPN/WireGuard configuration"
            (.WrappedErrorMessage "failed getting server WireGuard configuration"
              connectErr)))) ∧
      (∀ key body tag expires, env.GenerateKey = (key, none) →
        env.APIConnectWireguard server base.Profiles.Current (env.PublicKeyString key) preferTCP
          profile.supportsOpenVPN = (body, tag, expires, none) →
        GetConfig env server preferTCP =
          (server.setBase { base with StartTime := env.GetCurrentTime, EndTime := expires },
            if tag = "wireguard" then env.ConfigAddKey body key else body, tag, none))) ∧
    ("wireguard" ∉ profile.VPNProtoList →
      (∀ body expires,
        env.APIConnectOpenVPN server base.Profiles.Current preferTCP = (body, expires, none) →
        GetConfig env server preferTCP =
          (server.setBase { base with StartTime := env.GetCurrentTime, EndTime := expires },
            body, "openvpn", none)) ∧
      (∀ body expires connectErr,
        env.APIConnectOpenVPN server base.Profiles.Current preferTCP =
          (body, expires, some connectErr) →
        (GetConfig env server preferTCP).2 =
          ("", "", some (.WrappedErrorMessage
            "failed getting an OpenVPN/WireGuard configuration"
            (.WrappedErrorMessage "failed getting server OpenVPN configuration"
              connectErr)))) ∧
      (∀ after config configType,
        GetConfig env server preferTCP = (after, config, configType, none) →
        configType = "openvpn" ∧
          config = (env.APIConnectOpenVPN server base.Profiles.Current preferTCP).1 ∧
          (env.APIConnectOpenVPN server base.Profiles.Current preferTCP).2.2 = none)) := by
  constructor
  · intro hwg
    refine ⟨?_, ?_, ?_⟩
    · intro key keyErr hkey
      rw [getConfig_of_wireguard env server preferTCP profile hprofile hwg]
      simp only [wireguardGetConfig, hbase, hkey]
    · intro key body tag expires connectErr hkey hapi
      rw [getConfig_of_wireguard env server preferTCP profile hprofile hwg]
      simp only [wireguardGetConfig, hbase, hkey, hapi]
    · intro key body tag expires hkey hapi
      rw [getConfig_of_wireguard env server preferTCP profile hprofile hwg]
      simp only [wireguardGetConfig, hbase, hkey, hapi]
      by_cases ht : tag = "wireguard" <;> simp [ht]
  · intro hwg
    refine ⟨?_, ?_, ?_⟩
    · intro body expires hapi
      rw [getConfig_of_no_wireguard env server preferTCP profile hprofile hwg]
      simp only [openVPNGetConfig, hbase, hapi]
    · intro body expires connectErr hapi
      rw [getConfig_of_no_wireguard env server preferTCP profile hprofile hwg]
      simp only [openVPNGetConfig, hbase, hapi]
    · intro after config configType hret
      rw [getConfig_of_no_wireguard env server preferTCP profile hprofile hwg] at hret
      simp only [openVPNGetConfig, hbase] at hret
      cases herr : (env.APIConnectOpenVPN server base.Profiles.Current preferTCP).2.2 with
      | some configErr =>
        simp [herr] at hret
      | none =>
        simp only [herr, Prod.mk.injEq] at hret
        exact ⟨hret.2.2.1.symm, hret.2.1.symm, rfl⟩

/-- Witness of C10: one profile lists both protocols and the WireGuard connect
call answers with the tag "wireguard", so the key is injected; another profile
lists "openvpn" only and the body of the OpenVPN connect call is returned. -/
theorem getConfig_protocol_witness :
    ((profileServer "default" [sampleProfile "default" ["openvpn", "wireguard"]]).GetBase =
        .ok (profileBase "default" [sampleProfile "default" ["openvpn", "wireguard"]]) ∧
      getCurrentProfile (profileServer "default"
          [sampleProfile "default" ["openvpn", "wireguard"]]) =
        .ok (sampleProfile "default" ["openvpn", "wireguard"]) ∧
      (GetConfig (connectEnv ⟨10⟩ ⟨100⟩)
          (profileServer "default" [sampleProfile "default" ["openvpn", "wireguard"]]) false).2 =
        ("[Interface] PrivateKey = 123", "wireguard", none)) ∧
    (GetConfig (connectEnv ⟨10⟩ ⟨100⟩)
        (profileServer "default" [sampleProfile "default" ["openvpn"]]) false).2 =
      ("remote a 1194 udp", "openvpn", none) := by
  obtain ⟨_, _, hwireguard⟩ := (getConfig_protocol (connectEnv ⟨10⟩ ⟨100⟩)
    (profileServer "default" [sampleProfile "default" ["openvpn", "wireguard"]]) false
    (profileBase "default" [sampleProfile "default" ["openvpn", "wireguard"]])
    (sampleProfile "default" ["openvpn", "wireguard"]) rfl rfl).1 (by decide)
  obtain ⟨hopenvpn, _, _⟩ := (getConfig_protocol (connectEnv ⟨10⟩ ⟨100⟩)
    (profileServer "default" [sampleProfile "default" ["openvpn"]]) false
    (profileBase "default" [sampleProfile "default" ["openvpn"]])
    (sampleProfile "default" ["openvpn"]) rfl rfl).2 (by decide)
  refine ⟨⟨rfl, rfl, ?_⟩, ?_⟩
  · rw [hwireguard ⟨[1, 2, 3]⟩ "[Interface]" "wireguard" ⟨100⟩ rfl rfl]
    rfl
  · rw [hopenvpn "remote a 1194 udp" ⟨100⟩ rfl]

/-- C11 (the code at the failing input): the selected profile lists
"wireguard" only, `preferTCP` is true, key generation and the WireGuard connect
call succeed. `GetConfig` returns the WireGuard configuration and a nil error,
not `ServerGetConfigForceTCPError`. -/
theorem getConfig_preferTCP_without_openvpn :
    (sampleProfile "default" ["wireguard"]).supportsOpenVPN = false ∧
      getCurrentProfile (profileServer "default" [sampleProfile "default" ["wireguard"]]) =
        .ok (sampleProfile "default" ["wireguard"]) ∧
      (GetConfig (connectEnv ⟨10⟩ ⟨100⟩)
          (profileServer "default" [sampleProfile "default" ["wireguard"]]) true).2 =
        ("[Interface] PrivateKey = 123", "wireguard", none) :=
  ⟨rfl, rfl, rfl⟩

/-- A failure of the WireGuard path leaves the server as it was. -/
theorem wireguardGetConfig_error_keeps_server (env : Env) (server : Server)
    (preferTCP supportsOpenVPN : Bool) (err : Error)
    (herr : (wireguardGetConfig env server preferTCP supportsOpenVPN).2.2.2 = some err) :
    (wireguardGetConfig env server preferTCP supportsOpenVPN).1 = server := by
  unfold wireguardGetConfig at herr ⊢
  cases hbase : server.GetBase with
  | error baseErr => simp only
  | ok base =>
    simp only [hbase] at herr ⊢
    split
    · rfl
    · split
      · rfl
      · next hkey _ _ _ _ hapi =>
        rw [hkey] at herr
        simp only [hapi] at herr
        exact absurd herr (by simp)

/-- The OpenVPN path writes the start and end time whatever the connect call
returns, also with its error. -/
theorem openVPNGetConfig_sets_times (env : Env) (server : Server) (preferTCP : Bool)
    (base : ServerBase) (hbase : server.GetBase = .ok base) :
    (openVPNGetConfig env server preferTCP).1 =
      server.setBase { base with
        StartTime := env.GetCurrentTime,
        EndTime := (env.APIConnectOpenVPN server base.Profiles.Current preferTCP).2.1 } := by
  unfold openVPNGetConfig
  simp only [hbase]
  cases (env.APIConnectOpenVPN server base.Profiles.Current preferTCP).2.2 <;> rfl

/-- C12 (the code at the failing input): a server with a session from 1 to 2
whose selected profile lists "openvpn" only, the clock at 50, the OpenVPN
connect call failing (with the zero time as expiry). `GetConfig` returns an
error, and afterwards the start time of the base is 50 and its end time 0, not
1 and 2. -/
theorem getConfig_openvpn_failure_overwrites_times :
    (timedProfileServer ⟨1⟩ ⟨2⟩ "default" [sampleProfile "default" ["openvpn"]]).GetBase.toOption.map
        (fun base => (base.StartTime, base.EndTime)) = some (⟨1⟩, ⟨2⟩) ∧
      (GetConfig (offlineEnv ⟨50⟩)
          (timedProfileServer ⟨1⟩ ⟨2⟩ "default" [sampleProfile "default" ["openvpn"]]) false).2 =
        ("", "", some (.WrappedErrorMessage "failed getting an OpenVPN/WireGuard configuration"
          (.WrappedErrorMessage "failed getting server OpenVPN configuration"
            (.foreign "offline")))) ∧
      (GetConfig (offlineEnv ⟨50⟩)
          (timedProfileServer ⟨1⟩ ⟨2⟩ "default"
            [sampleProfile "default" ["openvpn"]]) false).1.GetBase.toOption.map
        (fun base => (base.StartTime, base.EndTime)) = some (⟨50⟩, ⟨0⟩) :=
  ⟨rfl, rfl, rfl⟩

/-- C13: a wrong profile id is reported as a typed error. For every server
with a base whose selected profile id is the id of no profile of its list (an
empty selection included, when no profile has an empty id), `GetConfig`
returns the empty config, the empty tag and an error that wraps
`ServerGetCurrentProfileNotFoundError` with exactly that id, which is its
cause; the server, its base included, is returned as it was; and the result is
the same in every environment, so that no connect call is made. -/
theorem getConfig_profile_not_found (env : Env) (server : Server) (preferTCP : Bool)
    (base : ServerBase) (hbase : server.GetBase = .ok base)
    (habsent : ∀ p ∈ base.Profiles.Info.ProfileList, p.ID ≠ base.Profiles.Current) :
    GetConfig env server preferTCP =
        (server, "", "", some (.WrappedErrorMessage
          "failed getting an OpenVPN/WireGuard configuration"
          (.WrappedErrorMessage "failed getting current profile"
            (.ServerGetCurrentProfileNotFoundError base.Profiles.Current)))) ∧
      (GetConfig env server preferTCP).2.2.2.map Error.cause =
        some (.ServerGetCurrentProfileNotFoundError base.Profiles.Current) ∧
      (GetConfig env server preferTCP).1.GetBase = .ok base ∧
      ∀ other : Env, GetConfig other server preferTCP = GetConfig env server preferTCP := by
  have h : ∀ e : Env, GetConfig e server preferTCP =
      (server, "", "", some (.WrappedErrorMessage
        "failed getting an OpenVPN/WireGuard configuration"
        (.WrappedErrorMessage "failed getting current profile"
          (.ServerGetCurrentProfileNotFoundError base.Profiles.Current)))) := by
    intro e
    simp only [GetConfig, getCurrentProfile_of_absent server base hbase habsent]
  refine ⟨h env, ?_, ?_, fun other => by rw [h other, h env]⟩
  · rw [h env]
    simp [Error.cause]
  · rw [h env]
    exact hbase

/-- Witness of C13: the selected id `IDONOTEXIST` with the one profile
`default`, in an environment where every connect call would succeed. -/
theorem getConfig_profile_not_found_witness :
    (profileServer "IDONOTEXIST" [sampleProfile "default" ["openvpn"]]).GetBase =
        .ok (profileBase "IDONOTEXIST" [sampleProfile "default" ["openvpn"]]) ∧
      (∀ p ∈ (profileBase "IDONOTEXIST"
          [sampleProfile "default" ["openvpn"]]).Profiles.Info.ProfileList,
        p.ID ≠ "IDONOTEXIST") ∧
      (GetConfig (connectEnv ⟨10⟩ ⟨100⟩)
          (profileServer "IDONOTEXIST" [sampleProfile "default" ["openvpn"]])
          false).2.2.2.map Error.cause =
        some (.ServerGetCurrentProfileNotFoundError "IDONOTEXIST") :=
  ⟨rfl, by decide,
    (getConfig_profile_not_found (connectEnv ⟨10⟩ ⟨100⟩)
      (profileServer "IDONOTEXIST" [sampleProfile "default" ["openvpn"]]) false
      (profileBase "IDONOTEXIST" [sampleProfile "default" ["openvpn"]]) rfl (by decide)).2.1⟩

/-! ## Theorems: signature verification -/

/-- The key loop returns `(true, nil)` or `(false, err)` with a declared code. -/
theorem verifyWithKeysLoop_result (env : VerifyEnv) (sig : Signature) (signedJson : List Nat)
    (expectedFileName : String) (minSignTime : Nat) (keys : List String) :
    verifyWithKeysLoop env sig signedJson expectedFileName minSignTime keys = (true, none) ∨
      ∃ err, verifyWithKeysLoop env sig signedJson expectedFileName minSignTime keys =
          (false, some err) ∧ err.Code ∈ declaredVerifyErrCodes := by
  induction keys with
  | nil => exact Or.inr ⟨_, rfl, by simp [declaredVerifyErrCodes]⟩
  | cons keyStr rest ih =>
    unfold verifyWithKeysLoop
    split
    · exact Or.inr ⟨_, rfl, by simp [declaredVerifyErrCodes]⟩
    · split
      · exact ih
      · split
        · exact Or.inr ⟨_, rfl, by simp [declaredVerifyErrCodes]⟩
        · split
          · exact Or.inr ⟨_, rfl, by simp [declaredVerifyErrCodes]⟩
          · split
            · exact Or.inr ⟨_, rfl, by simp [declaredVerifyErrCodes]⟩
            · split
              · exact Or.inr ⟨_, rfl, by simp [declaredVerifyErrCodes]⟩
              · exact Or.inl rfl

/-- C14: for every signature text, payload, expected file name, minimum time
and list of allowed keys, `verifyWithKeys` returns either `(true, nil)` or
`(false, err)` with `err` a `VerifyError` whose code is one of the nine
declared codes; so never `(true, err)` with an error and never `(false, nil)`.
The same holds for every result that `Verify` returns (when it does not
panic). -/
theorem verifyWithKeys_result (env : VerifyEnv) (signatureFileContent : String)
    (signedJson : List Nat) (expectedFileName : String) (minSignTime : Nat)
    (allowedPublicKeys : List String) :
    (verifyWithKeys env signatureFileContent signedJson expectedFileName minSignTime
          allowedPublicKeys = (true, none) ∨
        ∃ err, verifyWithKeys env signatureFileContent signedJson expectedFileName minSignTime
            allowedPublicKeys = (false, some err) ∧ err.Code ∈ declaredVerifyErrCodes) ∧
      ∀ result, Verify env signatureFileContent signedJson expectedFileName minSignTime =
          some result →
        result = (true, none) ∨
          ∃ err, result = (false, some err) ∧ err.Code ∈ declaredVerifyErrCodes := by
  have hall : ∀ keys, verifyWithKeys env signatureFileContent signedJson expectedFileName
        minSignTime keys = (true, none) ∨
      ∃ err, verifyWithKeys env signatureFileContent signedJson expectedFileName minSignTime
          keys = (false, some err) ∧ err.Code ∈ declaredVerifyErrCodes := by
    intro keys
    unfold verifyWithKeys
    split
    · exact Or.inr ⟨_, rfl, by simp [declaredVerifyErrCodes]⟩
    · split
      · exact Or.inr ⟨_, rfl, by simp [declaredVerifyErrCodes]⟩
      · split
        · exact Or.inr ⟨_, rfl, by simp [declaredVerifyErrCodes]⟩
        · exact verifyWithKeysLoop_result env _ signedJson expectedFileName minSignTime keys
  refine ⟨hall allowedPublicKeys, ?_⟩
  intro result hres
  unfold Verify at hres
  simp only at hres
  rcases hall ["RWRtBSX1alxyGX+Xn3LuZnWUT0w//B6EmTJvgaAxBMYzlQeI+jdrO6KF",
    "RWQKqtqvd0R7rUDp0rWzbtYPA3towPWcLDCl7eY9pBMMI/ohCmrS0WiM"] with h | ⟨err, h, hcode⟩
  · rw [h] at hres
    simp only [Option.some.injEq] at hres
    exact Or.inl hres.symm
  · rw [h] at hres
    simp only at hres
    split at hres
    · exact absurd hres (by simp)
    · simp only [Option.some.injEq] at hres
      exact Or.inr ⟨err, hres.symm, hcode⟩

/-- Witness of C14: `Verify` on a validly signed server list. -/
theorem verifyWithKeys_result_witness :
    Verify sampleVerifyEnv "sig" [] "server_list.json" 500 = some (true, none) ∧
      (((true, none) : Bool × Option VerifyError) = (true, none) ∨
        ∃ err, ((true, none) : Bool × Option VerifyError) = (false, some err) ∧
          err.Code ∈ declaredVerifyErrCodes) :=
  ⟨rfl, (verifyWithKeys_result sampleVerifyEnv "sig" [] "server_list.json" 500 []).2
    (true, none) rfl⟩

/-- C15: for every expected file name other than `server_list.json` and
`organization_list.json`, `verifyWithKeys` returns false and a `VerifyError`
with the code `ErrUnknownExpectedFileName`, for every signature text, payload,
minimum time and key list, and whatever the library calls would answer: the
file name is checked first, before the signature is decoded or a key is
used. -/
theorem verifyWithKeys_unknown_file_name (env : VerifyEnv) (signatureFileContent : String)
    (signedJson : List Nat) (expectedFileName : String) (minSignTime : Nat)
    (allowedPublicKeys : List String)
    (hserver : expectedFileName ≠ "server_list.json")
    (horganization : expectedFileName ≠ "organization_list.json") :
    verifyWithKeys env signatureFileContent signedJson expectedFileName minSignTime
        allowedPublicKeys =
      (false, some ⟨ErrUnknownExpectedFileName,
        "invalid expected file name (" ++ expectedFileName ++ ")", none⟩) := by
  unfold verifyWithKeys
  rw [if_pos ⟨hserver, horganization⟩]

/-- Witness of C15: the expected file name `other.json` with a signature text
that does not decode and a key string that is no key. -/
theorem verifyWithKeys_unknown_file_name_witness :
    "other.json" ≠ "server_list.json" ∧ "other.json" ≠ "organization_list.json" ∧
      verifyWithKeys sampleVerifyEnv "garbage" [1] "other.json" 0 ["bad"] =
        (false, some ⟨ErrUnknownExpectedFileName, "invalid expected file name (other.json)",
          none⟩) :=
  ⟨by decide, by decide,
    verifyWithKeys_unknown_file_name sampleVerifyEnv "garbage" [1] "other.json" 0 ["bad"]
      (by decide) (by decide)⟩

/-- When the key loop returns `(true, nil)`, some allowed key has the key id
of the signature, the signature verifies under it, and the trusted comment
scans to the expected file name and a time not below the minimum. -/
theorem verifyWithKeysLoop_true (env : VerifyEnv) (sig : Signature) (signedJson : List Nat)
    (expectedFileName : String) (minSignTime : Nat) (keys : List String)
    (hvalid : verifyWithKeysLoop env sig signedJson expectedFileName minSignTime keys =
      (true, none)) :
    ∃ keyStr ∈ keys, ∃ key signTime,
      env.NewPublicKey keyStr = .ok key ∧ key.KeyId = sig.KeyId ∧
      (env.Verify key signedJson sig).1 = true ∧
      scanTrustedComment env sig.TrustedComment = .ok (signTime, expectedFileName) ∧
      minSignTime ≤ signTime := by
  induction keys with
  | nil => simp [verifyWithKeysLoop] at hvalid
  | cons keyStr rest ih =>
    unfold verifyWithKeysLoop at hvalid
    split at hvalid
    · simp at hvalid
    · next key hkey =>
      split at hvalid
      · obtain ⟨k, hk, rest2⟩ := ih hvalid
        exact ⟨k, List.mem_cons_of_mem _ hk, rest2⟩
      · next hid =>
        split at hvalid
        · simp at hvalid
        · next _ hver =>
          split at hvalid
          · simp at hvalid
          · next signTime sigFileName hscan =>
            split at hvalid
            · simp at hvalid
            · next hname =>
              split at hvalid
              · simp at hvalid
              · next htime =>
                refine ⟨keyStr, List.mem_cons_self _ _, key, signTime, hkey, ?_, ?_, ?_, ?_⟩
                · exact (not_not.mp hid).symm
                · rw [hver]
                · rw [hscan, not_not.mp hname]
                · exact Nat.le_of_not_lt htime

/-- When every allowed key is a key and none has the key id of the signature,
the key loop ends with `ErrWrongKey`. -/
theorem verifyWithKeysLoop_unknown_key (env : VerifyEnv) (sig : Signature)
    (signedJson : List Nat) (expectedFileName : String) (minSignTime : Nat)
    (keys : List String)
    (hkeys : ∀ keyStr ∈ keys, ∃ key, env.NewPublicKey keyStr = .ok key ∧ key.KeyId ≠ sig.KeyId) :
    verifyWithKeysLoop env sig signedJson expectedFileName minSignTime keys =
      (false, some ⟨ErrWrongKey, "signature was created with an unknown key", none⟩) := by
  induction keys with
  | nil => rfl
  | cons keyStr rest ih =>
    obtain ⟨key, hkey, hid⟩ := hkeys keyStr (List.mem_cons_self _ _)
    unfold verifyWithKeysLoop
    simp only [hkey]
    rw [if_pos (fun h => hid h.symm)]
    exact ih (fun k hk => hkeys k (List.mem_cons_of_mem _ hk))

/-- A document accepted with the minimum time 0 is accepted or rejected with
`ErrTooOld` for any other minimum time, by its sign time alone. -/
theorem verifyWithKeysLoop_minSignTime (env : VerifyEnv) (sig : Signature)
    (signedJson : List Nat) (expectedFileName : String) (keys : List String)
    (hvalid : verifyWithKeysLoop env sig signedJson expectedFileName 0 keys = (true, none)) :
    ∃ signTime, scanTrustedComment env sig.TrustedComment = .ok (signTime, expectedFileName) ∧
      ∀ minSignTime,
        verifyWithKeysLoop env sig signedJson expectedFileName minSignTime keys =
          if signTime < minSignTime then
            (false, some ⟨ErrTooOld,
              "signature was created at " ++ toString signTime ++ " < minimum time (" ++
                toString minSignTime ++ ")", none⟩)
          else (true, none) := by
  induction keys with
  | nil => simp [verifyWithKeysLoop] at hvalid
  | cons keyStr rest ih =>
    unfold verifyWithKeysLoop at hvalid
    split at hvalid
    · simp at hvalid
    · next key hkey =>
      split at hvalid
      · next hid =>
        obtain ⟨signTime, hscan, hall⟩ := ih hvalid
        refine ⟨signTime, hscan, fun minSignTime => ?_⟩
        rw [← hall minSignTime]
        conv_lhs => unfold verifyWithKeysLoop
        simp only [hkey]
        rw [if_pos hid]
      · next hid =>
        split at hvalid
        · simp at hvalid
        · next _ hver =>
          split at hvalid
          · simp at hvalid
          · next signTime sigFileName hscan =>
            split at hvalid
            · simp at hvalid
            · next hname =>
              have hname2 : sigFileName = expectedFileName := not_not.mp hname
              refine ⟨signTime, by rw [hscan, hname2], fun minSignTime => ?_⟩
              conv_lhs => unfold verifyWithKeysLoop
              simp only [hkey]
              rw [if_neg hid]
              simp only [hver, hscan]
              rw [if_neg hname]

/-- The function `verifyWithKeys` once the file name is allowed, the signature
decodes and its algorithm is `ED`: the result is that of the key loop. -/
theorem verifyWithKeys_eq_loop (env : VerifyEnv) (signatureFileContent : String)
    (signedJson : List Nat) (expectedFileName : String) (minSignTime : Nat)
    (allowedPublicKeys : List String) (sig : Signature)
    (hname : expectedFileName = "server_list.json" ∨
      expectedFileName = "organization_list.json")
    (hsig : env.DecodeSignature signatureFileContent = .ok sig)
    (halg : sig.SignatureAlgorithm = [69, 68]) :
    verifyWithKeys env signatureFileContent signedJson expectedFileName minSignTime
        allowedPublicKeys =
      verifyWithKeysLoop env sig signedJson expectedFileName minSignTime allowedPublicKeys := by
  unfold verifyWithKeys
  rw [if_neg (by rcases hname with h | h <;> simp [h])]
  simp only [hsig]
  rw [if_neg (not_not.mpr halg)]

/-- When `verifyWithKeys` returns `(true, nil)`, the file name is allowed, the
signature decodes, its algorithm is `ED`, and the key loop returned
`(true, nil)`. -/
theorem verifyWithKeys_true_inv (env : VerifyEnv) (signatureFileContent : String)
    (signedJson : List Nat) (expectedFileName : String) (minSignTime : Nat)
    (allowedPublicKeys : List String)
    (hvalid : verifyWithKeys env signatureFileContent signedJson expectedFileName minSignTime
      allowedPublicKeys = (true, none)) :
    (expectedFileName = "server_list.json" ∨ expectedFileName = "organization_list.json") ∧
      ∃ sig, env.DecodeSignature signatureFileContent = .ok sig ∧
        sig.SignatureAlgorithm = [69, 68] ∧
        verifyWithKeysLoop env sig signedJson expectedFileName minSignTime allowedPublicKeys =
          (true, none) := by
  unfold verifyWithKeys at hvalid
  split at hvalid
  · simp at hvalid
  · next hname =>
    split at hvalid
    · simp at hvalid
    · next sig hsig =>
      split at hvalid
      · simp at hvalid
      · next halg =>
        refine ⟨?_, sig, hsig, not_not.mp halg, hvalid⟩
        by_cases h : expectedFileName = "server_list.json"
        · exact Or.inl h
        · exact Or.inr (not_not.mp (fun h2 => hname ⟨h, h2⟩))

/-- Counterexample to C16 as stated, in its two particular cases. (a) The
signature `sampleSignature` with the allowed keys a key of another key id and
then the string `bad`, which is no key: no allowed key has the key id of the
signature, and the result is `ErrInvalidPublicKey`, not `ErrWrongKey`. (b) The
same signature, which verifies under the allowed key `key` and whose time 1000
is below the minimum 2000, checked as `organization_list.json` while its
comment names `server_list.json`: the result is `ErrWrongFileName`, not
`ErrTooOld`. -/
theorem verifyWithKeys_particular_counterexample :
    (sampleVerifyEnv.DecodeSignature "sig" = .ok sampleSignature ∧
      (∀ keyStr ∈ ["RWQKqtqvd0R7rUDp0rWzbtYPA3towPWcLDCl7eY9pBMMI/ohCmrS0WiM", "bad"],
        ∀ key, sampleVerifyEnv.NewPublicKey keyStr = .ok key →
          key.KeyId ≠ sampleSignature.KeyId) ∧
      verifyWithKeys sampleVerifyEnv "sig" [] "server_list.json" 0
          ["RWQKqtqvd0R7rUDp0rWzbtYPA3towPWcLDCl7eY9pBMMI/ohCmrS0WiM", "bad"] =
        (false, some ⟨ErrInvalidPublicKey, "internal error: could not create public key",
          some "invalid key"⟩) ∧
      ErrInvalidPublicKey ≠ ErrWrongKey) ∧
    (sampleVerifyEnv.NewPublicKey "key" =
        .ok ⟨[69, 100], [109, 5, 37, 245, 106, 92, 114, 25], []⟩ ∧
      (sampleVerifyEnv.Verify ⟨[69, 100], [109, 5, 37, 245, 106, 92, 114, 25], []⟩ []
        sampleSignature).1 = true ∧
      scanTrustedComment sampleVerifyEnv sampleSignature.TrustedComment =
        .ok (1000, "server_list.json") ∧
      (1000 : Nat) < 2000 ∧
      verifyWithKeys sampleVerifyEnv "sig" [] "organization_list.json" 2000 ["key"] =
        (false, some ⟨ErrWrongFileName,
          "signature was on file server_list.json instead of expected organization_list.json",
          none⟩) ∧
      ErrWrongFileName ≠ ErrTooOld) := by
  refine ⟨⟨rfl, ?_, rfl, by decide⟩, ⟨rfl, rfl, rfl, by decide, rfl, by decide⟩⟩
  intro keyStr hmem key hkey
  simp only [List.mem_cons, List.mem_singleton, List.not_mem_nil, or_false] at hmem
  rcases hmem with h | h
  · subst h
    have hk : key = ⟨[69, 100], [10, 170, 218, 175, 119, 68, 123, 173], []⟩ := by
      have h2 : sampleVerifyEnv.NewPublicKey
          "RWQKqtqvd0R7rUDp0rWzbtYPA3towPWcLDCl7eY9pBMMI/ohCmrS0WiM" =
          .ok ⟨[69, 100], [10, 170, 218, 175, 119, 68, 123, 173], []⟩ := rfl
      rw [h2] at hkey
      injection hkey with hkey
      exact hkey.symm
    rw [hk]
    decide
  · subst h
    have h2 : sampleVerifyEnv.NewPublicKey "bad" = .error "invalid key" := rfl
    rw [h2] at hkey
    exact absurd hkey (by simp)

/-- C16 (amended): whenever `verifyWithKeys` returns `(true, nil)`, the expected
file name is one of the two allowed names, the signature text decodes to a
signature whose algorithm is `ED`, some key of `allowedPublicKeys` has the key
id of the signature and the signature verifies the payload under it, and the
trusted comment scans to the expected file name and to a time that is at least
`minSignTime`. In particular, for an allowed file name and a signature text
that decodes to an `ED` signature, when every string of `allowedPublicKeys` is
a key and none has the key id of the signature, the result is false with
`ErrWrongKey`; and a document that passes every check with the minimum time 0
is rejected with `ErrTooOld` when its time is below `minSignTime`. -/
theorem verifyWithKeys_sound (env : VerifyEnv) (signatureFileContent : String)
    (signedJson : List Nat) (expectedFileName : String) (minSignTime : Nat)
    (allowedPublicKeys : List String) :
    (verifyWithKeys env signatureFileContent signedJson expectedFileName minSignTime
        allowedPublicKeys = (true, none) →
      (expectedFileName = "server_list.json" ∨ expectedFileName = "organization_list.json") ∧
      ∃ sig, env.DecodeSignature signatureFileContent = .ok sig ∧
        sig.SignatureAlgorithm = [69, 68] ∧
        ∃ keyStr ∈ allowedPublicKeys, ∃ key signTime,
          env.NewPublicKey keyStr = .ok key ∧ key.KeyId = sig.KeyId ∧
          (env.Verify key signedJson sig).1 = true ∧
          scanTrustedComment env sig.TrustedComment = .ok (signTime, expectedFileName) ∧
          minSignTime ≤ signTime) ∧
    (∀ sig,
      (expectedFileName = "server_list.json" ∨ expectedFileName = "organization_list.json") →
      env.DecodeSignature signatureFileContent = .ok sig → sig.SignatureAlgorithm = [69, 68] →
      (∀ keyStr ∈ allowedPublicKeys,
        ∃ key, env.NewPublicKey keyStr = .ok key ∧ key.KeyId ≠ sig.KeyId) →
      verifyWithKeys env signatureFileContent signedJson expectedFileName minSignTime
          allowedPublicKeys =
        (false, some ⟨ErrWrongKey, "signature was created with an unknown key", none⟩)) ∧
    (verifyWithKeys env signatureFileContent signedJson expectedFileName 0
        allowedPublicKeys = (true, none) →
      ∃ sig signTime, env.DecodeSignature signatureFileContent = .ok sig ∧
        scanTrustedComment env sig.TrustedComment = .ok (signTime, expectedFileName) ∧
        (signTime < minSignTime →
          (verifyWithKeys env signatureFileContent signedJson expectedFileName minSignTime
            allowedPublicKeys).1 = false ∧
          (verifyWithKeys env signatureFileContent signedJson expectedFileName minSignTime
            allowedPublicKeys).2.map (fun err => err.Code) = some ErrTooOld)) := by
  refine ⟨fun hvalid => ?_, fun sig hname hsig halg hkeys => ?_, fun hvalid => ?_⟩
  · obtain ⟨hname, sig, hsig, halg, hloop⟩ := verifyWithKeys_true_inv env signatureFileContent
      signedJson expectedFileName minSignTime allowedPublicKeys hvalid
    exact ⟨hname, sig, hsig, halg,
      verifyWithKeysLoop_true env sig signedJson expectedFileName minSignTime allowedPublicKeys
        hloop⟩
  · rw [verifyWithKeys_eq_loop env signatureFileContent signedJson expectedFileName minSignTime
      allowedPublicKeys sig hname hsig halg]
    exact verifyWithKeysLoop_unknown_key env sig signedJson expectedFileName minSignTime
      allowedPublicKeys hkeys
  · obtain ⟨hname, sig, hsig, halg, hloop⟩ := verifyWithKeys_true_inv env signatureFileContent
      signedJson expectedFileName 0 allowedPublicKeys hvalid
    obtain ⟨signTime, hscan, hall⟩ := verifyWithKeysLoop_minSignTime env sig signedJson
      expectedFileName allowedPublicKeys hloop
    refine ⟨sig, signTime, hsig, hscan, fun hold => ?_⟩
    rw [verifyWithKeys_eq_loop env signatureFileContent signedJson expectedFileName minSignTime
      allowedPublicKeys sig hname hsig halg, hall minSignTime, if_pos hold]
    exact ⟨rfl, rfl⟩

/-- Witness of C16: a validly signed server list with the sign time 1000 and
the minimum time 500, the allowed keys being a key with another key id and
then the key of the signature. -/
theorem verifyWithKeys_sound_witness :
    verifyWithKeys sampleVerifyEnv "sig" [] "server_list.json" 500
        ["RWQKqtqvd0R7rUDp0rWzbtYPA3towPWcLDCl7eY9pBMMI/ohCmrS0WiM", "key"] = (true, none) ∧
      ("server_list.json" = "server_list.json" ∨
        "server_list.json" = "organization_list.json") :=
  ⟨rfl,
    ((verifyWithKeys_sound sampleVerifyEnv "sig" [] "server_list.json" 500
      ["RWQKqtqvd0R7rUDp0rWzbtYPA3towPWcLDCl7eY9pBMMI/ohCmrS0WiM", "key"]).1 rfl).1⟩

/-! ## Theorems: OAuth callback -/

/-- Counterexample to C17 as stated: the callback of the test, `iss=37`,
`code=42`, `state=21`, received when the generated state is `generated` and
the expected issuer `https://a/`. Both `code` and `state` are present and the
state is not the generated one, so that with the state compared before the
issuer, the order the claim states, the error would be the state-match error;
the error is the issuer-match error, as the test expects. -/
theorem validateCallback_wrong_iss_counterexample :
    [("iss", "37"), ("code", "42"), ("state", "21")].lookup "code" = some "42" ∧
      [("iss", "37"), ("code", "42"), ("state", "21")].lookup "state" = some "21" ∧
      "21" ≠ "generated" ∧
      validateCallback "generated" "https://a/" [("iss", "37"), ("code", "42"), ("state", "21")] =
        .error .CallbackISSMatchError ∧
      validateCallback "generated" "https://a/" [("iss", "37"), ("code", "42"), ("state", "21")] ≠
        .error .CallbackStateMatchError := by
  have h : validateCallback "generated" "https://a/"
      [("iss", "37"), ("code", "42"), ("state", "21")] = .error .CallbackISSMatchError := rfl
  refine ⟨rfl, rfl, by decide, h, ?_⟩
  rw [h]
  simp

/-- C17 (amended): the callback is validated in the order (1) `code` and
`state` both present, else the parameter error; (2) a present `iss` equal to
the expected issuer, else the issuer-match error; (3) `state` equal to the
generated state, else the state-match error; otherwise the code is returned.
So `iss` alone and `iss` with `code` give the parameter error; the expected
`iss` with a code and a wrong state gives the state-match error; and a wrong
`iss` with a code and a state gives the issuer-match error, whatever the
state. -/
theorem validateCallback_order (generatedState expectedIssuer : String)
    (parameters : List (String × String)) :
    ((parameters.lookup "code" = none ∨ parameters.lookup "state" = none →
        validateCallback generatedState expectedIssuer parameters =
          .error .CallbackParameterError) ∧
      (∀ code state iss, parameters.lookup "code" = some code →
        parameters.lookup "state" = some state →
        parameters.lookup "iss" = some iss → iss ≠ expectedIssuer →
        validateCallback generatedState expectedIssuer parameters =
          .error .CallbackISSMatchError) ∧
      (∀ code state, parameters.lookup "code" = some code →
        parameters.lookup "state" = some state →
        (parameters.lookup "iss" = none ∨ parameters.lookup "iss" = some expectedIssuer) →
        state ≠ generatedState →
        validateCallback generatedState expectedIssuer parameters =
          .error .CallbackStateMatchError) ∧
      (∀ code, parameters.lookup "code" = some code →
        parameters.lookup "state" = some generatedState →
        (parameters.lookup "iss" = none ∨ parameters.lookup "iss" = some expectedIssuer) →
        validateCallback generatedState expectedIssuer parameters = .ok code)) ∧
    (∀ iss code state : String,
      validateCallback generatedState expectedIssuer [("iss", iss)] =
          .error .CallbackParameterError ∧
        validateCallback generatedState expectedIssuer [("iss", iss), ("code", code)] =
          .error .CallbackParameterError ∧
        (state ≠ generatedState →
          validateCallback generatedState expectedIssuer
              [("iss", expectedIssuer), ("code", code), ("state", state)] =
            .error .CallbackStateMatchError) ∧
        (iss ≠ expectedIssuer →
          validateCallback generatedState expectedIssuer
              [("iss", iss), ("code", code), ("state", state)] =
            .error .CallbackISSMatchError)) := by
  have hparam : parameters.lookup "code" = none ∨ parameters.lookup "state" = none →
      validateCallback generatedState expectedIssuer parameters =
        .error .CallbackParameterError := by
    intro h
    unfold validateCallback
    split
    · next hc hs => rcases h with h | h <;> simp_all
    · rfl
  refine ⟨⟨hparam, ?_, ?_, ?_⟩, ?_⟩
  · intro code state iss hc hs hi hne
    simp [validateCallback, hc, hs, hi, hne]
  · intro code state hc hs hi hne
    rcases hi with hi | hi <;> simp [validateCallback, hc, hs, hi, hne]
  · intro code hc hs hi
    rcases hi with hi | hi <;> simp [validateCallback, hc, hs, hi]
  · intro iss code state
    refine ⟨by simp [validateCallback, List.lookup], by simp [validateCallback, List.lookup],
      fun hne => ?_, fun hne => ?_⟩
    · simp [validateCallback, List.lookup, hne]
    · simp [validateCallback, List.lookup, hne]

/-- Witness of C17 (amended): the callback of the test, `iss=37`, `code=42`,
`state=21`, when the generated state is `generated` and the expected issuer
`https://a/`. -/
theorem validateCallback_order_witness :
    validateCallback "generated" "https://a/" [("iss", "37"), ("code", "42"), ("state", "21")] =
      .error .CallbackISSMatchError :=
  ((validateCallback_order "generated" "https://a/"
    [("iss", "37"), ("code", "42"), ("state", "21")]).1.2.1) "42" "21" "37" rfl rfl rfl
    (by decide)

/-! ## Theorems: the renewal decision as a whole -/

/-- The truncating quotient by 4 of a non-negative number, times 3, does not
wrap around when the number is below one day, and is the floor quotient. -/
theorem threshold_tdiv (d : Int) (h0 : 0 ≤ d) (h1 : d < 24 * Hour) :
    wrapInt64 (Int.tdiv d 4 * 3) = Int.tdiv d 4 * 3 := by
  rw [threshold_exact d h0 h1, Int.tdiv_eq_ediv h0 (by decide)]

/-- A difference of at least one day stays at least one day under the
saturation of `Sub`. -/
theorem sub_long (t u : Time) (hlong : 24 * Hour ≤ t.nsec - u.nsec) :
    (24 : Int) * Hour ≤ t.Sub u := by
  have hH : (24 : Int) * Hour = 86400000000000 := by decide
  have hmax : (maxDuration : Int) = 9223372036854775807 := by decide
  have hmin : (minDuration : Int) = -9223372036854775808 := by decide
  unfold Time.Sub
  simp only
  split
  · omega
  · split <;> omega

/-- C18: `ShouldRenewButton` applies its checks in the order of the spec: for
every server whose base lookup succeeds, with start time `s`, end time `e` and
current time `c`, its result is the reference decision: true if `c >= e`;
otherwise false if `c <= s + 30min`; otherwise false if `c + 24h <= e`;
otherwise false if `(e - s) < 24h` and `c <= s + ((e - s) / 4) * 3`; otherwise
true. In particular a session that will not expire within the next 24 hours
(`c + 24h <= e`) is never due for renewal. -/
theorem shouldRenewButton_reference (env : Env) (server : Server) (base : ServerBase)
    (hbase : server.GetBase = .ok base) :
    ShouldRenewButton env server =
        shouldRenewReference base.StartTime.nsec base.EndTime.nsec env.GetCurrentTime.nsec ∧
      (env.GetCurrentTime.nsec + 24 * Hour ≤ base.EndTime.nsec →
        ShouldRenewButton env server = false) := by
  have hH : (24 : Int) * Hour = 86400000000000 := by decide
  have hM : (30 : Int) * Minute = 1800000000000 := by decide
  have hmax : (maxDuration : Int) = 9223372036854775807 := by decide
  have hmin : (minDuration : Int) = -9223372036854775808 := by decide
  rw [shouldRenewButton_eq env server base hbase]
  unfold shouldRenewReference
  constructor
  · by_cases h1 : base.EndTime.nsec ≤ env.GetCurrentTime.nsec
    · rw [if_pos h1, if_pos h1]
    · rw [if_neg h1, if_neg h1]
      by_cases h2 : env.GetCurrentTime.nsec ≤ base.StartTime.nsec + 30 * Minute
      · rw [if_pos h2, if_pos h2]
      · rw [if_neg h2, if_neg h2]
        by_cases h3 : env.GetCurrentTime.nsec + 24 * Hour ≤ base.EndTime.nsec
        · rw [if_pos h3, if_pos h3]
        · rw [if_neg h3, if_neg h3]
          have hd0 : 0 ≤ base.EndTime.nsec - base.StartTime.nsec := by omega
          by_cases hshort : base.EndTime.nsec - base.StartTime.nsec < 24 * Hour
          · have hsub : base.EndTime.Sub base.StartTime =
                base.EndTime.nsec - base.StartTime.nsec := sub_exact _ _ hd0 (by omega)
            rw [hsub, threshold_tdiv _ hd0 hshort]
          · have hlong : (24 : Int) * Hour ≤ base.EndTime.Sub base.StartTime :=
              sub_long _ _ (not_lt.mp hshort)
            rw [if_neg (fun h => absurd h.1 (not_lt.mpr hlong)), if_neg (fun h => hshort h.1)]
  · intro hfar
    have h1 : ¬ base.EndTime.nsec ≤ env.GetCurrentTime.nsec := by omega
    rw [if_neg h1]
    by_cases h2 : env.GetCurrentTime.nsec ≤ base.StartTime.nsec + 30 * Minute
    · rw [if_pos h2]
    · rw [if_neg h2, if_pos hfar]

/-- Witness of C18: a session from 0 to 48 hours, looked at after 1 hour. -/
theorem shouldRenewButton_reference_witness :
    (sessionServer ⟨0⟩ ⟨172800000000000⟩).GetBase =
        .ok { InstituteAccessServer.zero.Base with
              StartTime := ⟨0⟩, EndTime := ⟨172800000000000⟩ } ∧
      ShouldRenewButton (offlineEnv ⟨3600000000000⟩) (sessionServer ⟨0⟩ ⟨172800000000000⟩) =
        shouldRenewReference 0 172800000000000 3600000000000 :=
  ⟨rfl, (shouldRenewButton_reference (offlineEnv ⟨3600000000000⟩)
    (sessionServer ⟨0⟩ ⟨172800000000000⟩)
    { InstituteAccessServer.zero.Base with StartTime := ⟨0⟩, EndTime := ⟨172800000000000⟩ }
    rfl).1⟩

/-- C19: `ShouldRenewButton` is monotone in the current time. For one server
(fixed session start and end time) and two clocks with the current time of the
first not after that of the second, if the call returns true at the first it
returns true at the second. -/
theorem shouldRenewButton_monotone (earlier later : Env) (server : Server)
    (hclock : earlier.GetCurrentTime.nsec ≤ later.GetCurrentTime.nsec)
    (hdue : ShouldRenewButton earlier server = true) :
    ShouldRenewButton later server = true := by
  cases hbase : server.GetBase with
  | error err => simp [ShouldRenewButton, hbase] at hdue
  | ok base =>
    rw [shouldRenewButton_eq earlier server base hbase] at hdue
    rw [shouldRenewButton_eq later server base hbase]
    by_cases h1 : base.EndTime.nsec ≤ later.GetCurrentTime.nsec
    · rw [if_pos h1]
    · rw [if_neg h1]
      have h1e : ¬ base.EndTime.nsec ≤ earlier.GetCurrentTime.nsec := by omega
      rw [if_neg h1e] at hdue
      by_cases h2e : earlier.GetCurrentTime.nsec ≤ base.StartTime.nsec + 30 * Minute
      · rw [if_pos h2e] at hdue
        exact absurd hdue (by decide)
      · rw [if_neg h2e] at hdue
        have h2 : ¬ later.GetCurrentTime.nsec ≤ base.StartTime.nsec + 30 * Minute := by omega
        rw [if_neg h2]
        by_cases h3e : earlier.GetCurrentTime.nsec + 24 * Hour ≤ base.EndTime.nsec
        · rw [if_pos h3e] at hdue
          exact absurd hdue (by decide)
        · rw [if_neg h3e] at hdue
          have h3 : ¬ later.GetCurrentTime.nsec + 24 * Hour ≤ base.EndTime.nsec := by omega
          rw [if_neg h3]
          by_cases h4 : base.EndTime.Sub base.StartTime < 24 * Hour ∧
              later.GetCurrentTime.nsec ≤ base.StartTime.nsec +
                wrapInt64 (Int.tdiv (base.EndTime.Sub base.StartTime) 4 * 3)
          · rw [if_pos ⟨h4.1, le_trans hclock h4.2⟩] at hdue
            exact absurd hdue (by decide)
          · rw [if_neg h4]

/-- Witness of C19: a session from 0 to 2 hours, due after 1 hour and 45
minutes and still due after 1 hour and 50 minutes. -/
theorem shouldRenewButton_monotone_witness :
    (offlineEnv ⟨6300000000000⟩).GetCurrentTime.nsec ≤
        (offlineEnv ⟨6600000000000⟩).GetCurrentTime.nsec ∧
      ShouldRenewButton (offlineEnv ⟨6300000000000⟩) (sessionServer ⟨0⟩ ⟨7200000000000⟩) = true ∧
      ShouldRenewButton (offlineEnv ⟨6600000000000⟩) (sessionServer ⟨0⟩ ⟨7200000000000⟩) = true :=
  ⟨by decide, by decide,
    shouldRenewButton_monotone (offlineEnv ⟨6300000000000⟩) (offlineEnv ⟨6600000000000⟩)
      (sessionServer ⟨0⟩ ⟨7200000000000⟩) (by decide) (by decide)⟩

/-! ## Theorems: the outcome of profile validation -/

/-- The call `HasValidProfile` after a successful fetch and base lookup: only
the selected id of the base is written, and the result tells how. -/
theorem hasValidProfile_fetched (env : Env) (server fetched : Server) (base : ServerBase)
    (hinfo : env.APIInfo server = (fetched, none)) (hbase : fetched.GetBase = .ok base) :
    ∃ selected valid,
      HasValidProfile env server =
        some (fetched.setBase { base with Profiles := { base.Profiles with Current := selected } },
          valid, none) ∧
      (valid = true → ∃ p ∈ base.Profiles.Info.ProfileList, p.ID = selected) ∧
      (valid = false → selected = "" ∧ base.Profiles.Info.ProfileList.length ≠ 1) ∧
      (selected ≠ base.Profiles.Current → selected ≠ "" →
        ∃ only, base.Profiles.Info.ProfileList = [only] ∧ selected = only.ID) := by
  by_cases hsel : base.Profiles.Current = ""
  · rw [hasValidProfile_of_unselected env server fetched base hinfo hbase hsel]
    match hlist : base.Profiles.Info.ProfileList with
    | [] =>
      exact ⟨base.Profiles.Current, false, rfl, by simp, fun _ => ⟨hsel, by simp⟩,
        fun h => absurd rfl h⟩
    | [only] =>
      exact ⟨only.ID, true, rfl, fun _ => ⟨only, by simp, rfl⟩, by simp,
        fun _ _ => ⟨only, rfl, rfl⟩⟩
    | _ :: _ :: _ =>
      exact ⟨base.Profiles.Current, false, rfl, by simp, fun _ => ⟨hsel, by simp⟩,
        fun h => absurd rfl h⟩
  · by_cases hpresent : ∃ p ∈ base.Profiles.Info.ProfileList, p.ID = base.Profiles.Current
    · rw [hasValidProfile_of_present env server fetched base hinfo hbase hsel hpresent]
      exact ⟨base.Profiles.Current, true, rfl, fun _ => hpresent, by simp,
        fun h => absurd rfl h⟩
    · have habsent : ∀ p ∈ base.Profiles.Info.ProfileList, p.ID ≠ base.Profiles.Current :=
        fun p hp hid => hpresent ⟨p, hp, hid⟩
      rw [hasValidProfile_of_absent env server fetched base hinfo hbase hsel habsent]
      match hlist : base.Profiles.Info.ProfileList with
      | [] => exact ⟨"", false, rfl, by simp, fun _ => ⟨rfl, by simp⟩, fun _ h => absurd rfl h⟩
      | [only] =>
        exact ⟨only.ID, true, rfl, fun _ => ⟨only, by simp, rfl⟩, by simp,
          fun _ _ => ⟨only, rfl, rfl⟩⟩
      | _ :: _ :: _ =>
        exact ⟨"", false, rfl, by simp, fun _ => ⟨rfl, by simp⟩, fun _ h => absurd rfl h⟩

/-- The call `HasValidProfile` returns an error when the fetch or the base
lookup fails. -/
theorem hasValidProfile_failed (env : Env) (server : Server) :
    (∀ fetched infoErr, env.APIInfo server = (fetched, some infoErr) →
      HasValidProfile env server = some (fetched, false,
        some (.WrappedErrorMessage "failed has valid profile check" infoErr))) ∧
    (∀ fetched baseErr, env.APIInfo server = (fetched, none) →
      fetched.GetBase = .error baseErr →
      HasValidProfile env server = some (fetched, false,
        some (.WrappedErrorMessage "failed has valid profile check" baseErr))) := by
  constructor
  · intro fetched infoErr hinfo
    unfold HasValidProfile
    simp only [hinfo]
  · intro fetched baseErr hinfo hbase
    unfold HasValidProfile
    simp only [hinfo, hbase]

/-- The call `HasValidProfile` always returns: the access `ProfileList[0]` is
never out of range. -/
theorem hasValidProfile_total (env : Env) (server : Server) :
    HasValidProfile env server ≠ none := by
  cases hinfo : env.APIInfo server with
  | mk fetched infoErr? =>
    cases infoErr? with
    | some infoErr =>
      rw [(hasValidProfile_failed env server).1 fetched infoErr hinfo]
      simp
    | none =>
      cases hbase : fetched.GetBase with
      | error baseErr =>
        rw [(hasValidProfile_failed env server).2 fetched baseErr hinfo hbase]
        simp
      | ok base =>
        obtain ⟨_, _, h, _⟩ := hasValidProfile_fetched env server fetched base hinfo hbase
        rw [h]
        simp

/-- Counterexample to C20 as stated: nothing is selected and the list has two
profiles, the first with the empty id. `HasValidProfile` returns false and a
nil error; after the call the selected id is empty, it is the id of the first
profile of the list, and `getCurrentProfile` finds that profile. -/
theorem hasValidProfile_empty_id_counterexample :
    (HasValidProfile profileEnv
        (profileServer "" [sampleProfile "" ["openvpn"], sampleProfile "a" ["openvpn"]])).map
        (fun r => r.2) = some (false, none) ∧
      (HasValidProfile profileEnv
        (profileServer "" [sampleProfile "" ["openvpn"], sampleProfile "a" ["openvpn"]])).map
        (fun r => r.1.GetBase.toOption.map (fun base => base.Profiles)) =
        some (some
          { Current := "",
            Info := { ProfileList :=
              [sampleProfile "" ["openvpn"], sampleProfile "a" ["openvpn"]] } }) ∧
      (sampleProfile "" ["openvpn"]).ID = "" ∧
      (HasValidProfile profileEnv
        (profileServer "" [sampleProfile "" ["openvpn"], sampleProfile "a" ["openvpn"]])).map
        (fun r => (getCurrentProfile r.1).toOption) =
        some (some (sampleProfile "" ["openvpn"])) :=
  ⟨rfl, rfl, rfl, rfl⟩

/-- C20 (amended): for every server on which `HasValidProfile` completes
without error, the fetch and the base lookup succeeded and, after the call,
the base is the fetched base with at most the selected id changed (the profile
list is not modified). If the call returns true, the selected id after the
call is the id of some profile of the list, so that `getCurrentProfile`
succeeds; if it returns false, the selected id is empty and the list does not
have exactly one profile. When no profile of the list has the empty id, the
call returns true exactly when the selected id after the call is the id of
some profile of the list. The selected id is set to the id of the first
profile only when the list has exactly one profile, and the call never panics
on an index out of range, for any list. -/
theorem hasValidProfile_outcome (env : Env) (server after : Server) (valid : Bool)
    (hok : HasValidProfile env server = some (after, valid, none)) :
    (∃ fetched base selected,
      env.APIInfo server = (fetched, none) ∧ fetched.GetBase = .ok base ∧
      after.GetBase =
        .ok { base with Profiles := { base.Profiles with Current := selected } } ∧
      (valid = true →
        (∃ p ∈ base.Profiles.Info.ProfileList, p.ID = selected) ∧
        ∃ profile, getCurrentProfile after = .ok profile ∧ profile.ID = selected) ∧
      (valid = false → selected = "" ∧ base.Profiles.Info.ProfileList.length ≠ 1) ∧
      ((∀ p ∈ base.Profiles.Info.ProfileList, p.ID ≠ "") →
        (valid = true ↔ ∃ p ∈ base.Profiles.Info.ProfileList, p.ID = selected)) ∧
      (selected ≠ base.Profiles.Current → selected ≠ "" →
        ∃ only, base.Profiles.Info.ProfileList = [only] ∧ selected = only.ID)) ∧
    ∀ (anyEnv : Env) (anyServer : Server), HasValidProfile anyEnv anyServer ≠ none := by
  refine ⟨?_, hasValidProfile_total⟩
  cases hinfo : env.APIInfo server with
  | mk fetched infoErr? =>
    cases infoErr? with
    | some infoErr =>
      rw [(hasValidProfile_failed env server).1 fetched infoErr hinfo] at hok
      simp at hok
    | none =>
      cases hbase : fetched.GetBase with
      | error baseErr =>
        rw [(hasValidProfile_failed env server).2 fetched baseErr hinfo hbase] at hok
        simp at hok
      | ok base =>
        obtain ⟨selected, v, h, htrue, hfalse, hfirst⟩ :=
          hasValidProfile_fetched env server fetched base hinfo hbase
        rw [h] at hok
        simp only [Option.some.injEq, Prod.mk.injEq, and_true] at hok
        obtain ⟨hafter, hv⟩ := hok
        subst hv
        have hget : after.GetBase =
            .ok { base with Profiles := { base.Profiles with Current := selected } } := by
          rw [← hafter]
          exact getBase_setBase fetched _
        refine ⟨fetched, base, selected, rfl, hbase, hget, ?_, hfalse, ?_, hfirst⟩
        · intro hv
          refine ⟨htrue hv, ?_⟩
          obtain ⟨profile, hp, _, hid⟩ := getCurrentProfile_of_present after _ hget (htrue hv)
          exact ⟨profile, hp, hid⟩
        · intro hnonempty
          constructor
          · exact htrue
          · rintro ⟨p, hp, hid⟩
            cases hv : v with
            | true => rfl
            | false =>
              have hempty := (hfalse hv).1
              exact absurd (hid.trans hempty) (hnonempty p hp)

/-- Witness of C20 (amended): the stale selection `IDONOTEXIST` with the one
profile `default`. -/
theorem hasValidProfile_outcome_witness :
    HasValidProfile profileEnv
        (profileServer "IDONOTEXIST" [sampleProfile "default" ["openvpn"]]) =
      some (profileServer "default" [sampleProfile "default" ["openvpn"]], true, none) ∧
    ∀ (anyEnv : Env) (anyServer : Server), HasValidProfile anyEnv anyServer ≠ none :=
  ⟨rfl,
    (hasValidProfile_outcome profileEnv
      (profileServer "IDONOTEXIST" [sampleProfile "default" ["openvpn"]])
      (profileServer "default" [sampleProfile "default" ["openvpn"]]) true rfl).2⟩

/-! ## Theorems: removing an institute access server -/

/-- What is stored after `Remove`. -/
theorem remove_lookup (c : InstituteAccessServers) (url u : String) :
    (c.Remove url).lookup u = if u = url then none else c.lookup u := by
  unfold InstituteAccessServers.Remove InstituteAccessServers.lookup
  by_cases hcur : c.CurrentURL = url <;> cases hm : c.Map <;> simp [hcur, hm]

/-- The current URL after `Remove`. -/
theorem remove_currentURL (c : InstituteAccessServers) (url : String) :
    (c.Remove url).CurrentURL = if c.CurrentURL = url then "" else c.CurrentURL := by
  unfold InstituteAccessServers.Remove
  by_cases hcur : c.CurrentURL = url <;> cases hm : c.Map <;> simp [hcur, hm]

/-- A nil map stays nil under `Remove`, and a map stays a map. -/
theorem remove_map_isSome (c : InstituteAccessServers) (url : String) :
    (c.Remove url).Map.isSome = c.Map.isSome := by
  unfold InstituteAccessServers.Remove
  by_cases hcur : c.CurrentURL = url <;> cases hm : c.Map <;> simp [hcur, hm]

/-- Removing a URL a second time changes nothing. -/
theorem remove_remove (c : InstituteAccessServers) (url : String) :
    (c.Remove url).Remove url = c.Remove url := by
  unfold InstituteAccessServers.Remove
  by_cases hcur : c.CurrentURL = url
  · by_cases hempty : "" = url
    · cases hm : c.Map with
      | none => simp [hcur, hm, hempty]
      | some m =>
        simp only [hcur, hm, hempty, if_true]
        congr 2
        funext u
        by_cases hu : u = url <;> simp [hu]
    · cases hm : c.Map with
      | none => simp [hcur, hm, hempty]
      | some m =>
        simp only [hcur, hm, hempty, if_true, if_false]
        congr 2
        funext u
        by_cases hu : u = url <;> simp [hu]
  · cases hm : c.Map with
    | none => simp [hcur, hm]
    | some m =>
      simp only [hcur, hm, if_false]
      congr 2
      funext u
      by_cases hu : u = url <;> simp [hu]

/-- With a tag other than secure-internet, `GetCurrentServer` returns no server
and an error when the selected collection holds no server under its current
URL. -/
theorem getCurrentServer_error_of_lookup (servers : Servers)
    (hns : servers.IsType ≠ SecureInternetServerType)
    (hno : ∀ s, servers.selected.lookup servers.selected.CurrentURL ≠ some (some s)) :
    servers.GetCurrentServer.1 = none ∧
      ∃ err, servers.GetCurrentServer.2 = some err ∧
        (err.cause = .ServerGetCurrentNoMapError ∨
          err.cause = .ServerGetCurrentNotFoundError) := by
  unfold Servers.selected InstituteAccessServers.lookup at hno
  unfold Servers.GetCurrentServer
  simp only [if_neg hns]
  cases hm : (if servers.IsType = CustomServerType then servers.CustomServers
      else servers.InstituteServers).Map with
  | none => exact ⟨rfl, _, rfl, Or.inl rfl⟩
  | some m =>
    simp only [hm] at hno ⊢
    cases he : m (if servers.IsType = CustomServerType then servers.CustomServers
        else servers.InstituteServers).CurrentURL with
    | none => exact ⟨rfl, _, rfl, Or.inr rfl⟩
    | some entry =>
      cases entry with
      | none => exact ⟨rfl, _, rfl, Or.inr rfl⟩
      | some server => exact absurd he (hno server)

/-- C21: for every registry and URL `u`, after `RemoveInstituteAccess(u)` the
institute-access collection has no entry under `u`, every entry under another
URL is unchanged, `CurrentURL` is empty if it was `u` and unchanged otherwise,
and the custom collection, the secure-internet home server and the current tag
are unchanged. Removing is idempotent (a second removal changes nothing) and
safe on a collection never initialised (the call returns for every registry;
a nil map stays nil). Consequently, if the tag selects the institute-access
collection and the removed URL was its current URL, `GetCurrentServer`
afterwards returns no server and an error, provided no server is stored under
the empty URL. -/
theorem removeInstituteAccess_frame (servers : Servers) (url : String) :
    (servers.RemoveInstituteAccess url).InstituteServers.lookup url = none ∧
      (∀ u, u ≠ url →
        (servers.RemoveInstituteAccess url).InstituteServers.lookup u =
          servers.InstituteServers.lookup u) ∧
      (servers.RemoveInstituteAccess url).InstituteServers.CurrentURL =
        (if servers.InstituteServers.CurrentURL = url then ""
          else servers.InstituteServers.CurrentURL) ∧
      (servers.RemoveInstituteAccess url).CustomServers = servers.CustomServers ∧
      (servers.RemoveInstituteAccess url).SecureInternetHomeServer =
        servers.SecureInternetHomeServer ∧
      (servers.RemoveInstituteAccess url).IsType = servers.IsType ∧
      (servers.RemoveInstituteAccess url).RemoveInstituteAccess url =
        servers.RemoveInstituteAccess url ∧
      (servers.InstituteServers.Map = none →
        (servers.RemoveInstituteAccess url).InstituteServers.Map = none) ∧
      (servers.IsType ≠ SecureInternetServerType → servers.IsType ≠ CustomServerType →
        servers.InstituteServers.CurrentURL = url →
        (∀ s, servers.InstituteServers.lookup "" ≠ some (some s)) →
        (servers.RemoveInstituteAccess url).GetCurrentServer.1 = none ∧
          ∃ err, (servers.RemoveInstituteAccess url).GetCurrentServer.2 = some err ∧
            (err.cause = .ServerGetCurrentNoMapError ∨
              err.cause = .ServerGetCurrentNotFoundError)) := by
  have hinst : (servers.RemoveInstituteAccess url).InstituteServers =
      servers.InstituteServers.Remove url := rfl
  refine ⟨?_, ?_, ?_, rfl, rfl, rfl, ?_, ?_, ?_⟩
  · rw [hinst, remove_lookup, if_pos rfl]
  · intro u hu
    rw [hinst, remove_lookup, if_neg hu]
  · rw [hinst, remove_currentURL]
  · unfold Servers.RemoveInstituteAccess
    simp only [remove_remove]
  · intro hnil
    have h := remove_map_isSome servers.InstituteServers url
    rw [hnil, ← hinst] at h
    cases hm : (servers.RemoveInstituteAccess url).InstituteServers.Map with
    | none => rfl
    | some m => rw [hm] at h; exact absurd h (by simp)
  · intro hns hnc hcur hempty
    apply getCurrentServer_error_of_lookup (servers.RemoveInstituteAccess url) hns
    intro s
    have hsel : (servers.RemoveInstituteAccess url).selected =
        servers.InstituteServers.Remove url := by
      unfold Servers.selected
      rw [if_neg (show ¬ (servers.RemoveInstituteAccess url).IsType = CustomServerType from hnc)]
      rfl
    rw [hsel, remove_currentURL, if_pos hcur, remove_lookup]
    by_cases hu : "" = url
    · rw [if_pos hu]
      simp
    · rw [if_neg hu]
      exact hempty s

/-- Witness of C21: the current institute access server `https://a/` is
removed; afterwards nothing is stored under that URL and `GetCurrentServer`
returns no server and the not-found error. -/
theorem removeInstituteAccess_frame_witness :
    sampleInstituteRegistry.GetCurrentServer = (some (.institute sampleHeld), none) ∧
      sampleInstituteRegistry.InstituteServers.CurrentURL = "https://a/" ∧
      (sampleInstituteRegistry.RemoveInstituteAccess "https://a/").InstituteServers.lookup
        "https://a/" = none ∧
      (sampleInstituteRegistry.RemoveInstituteAccess "https://a/").GetCurrentServer.1 = none ∧
      (sampleInstituteRegistry.RemoveInstituteAccess "https://a/").GetCurrentServer.2.map
        Error.cause = some .ServerGetCurrentNotFoundError :=
 by
  obtain ⟨hgone, _, _, _, _, _, _, _, hcurrent⟩ :=
    removeInstituteAccess_frame sampleInstituteRegistry "https://a/"
  exact ⟨rfl, rfl, hgone,
    (hcurrent (by decide) (by decide) rfl (fun _ h => nomatch h)).1, rfl⟩

end EduVPN
